import Mathlib

/-!
Shallow embedding of `peephole_opt.py` (the CPython 3.6 peephole optimizer
reimplemented in pure Python on top of the `bytecode` module).

The source file defines `_CodePeepholeOptimizer`, whose state is:
  * `self.code`        — a `bytecode.Code` (list of blocks + constants table),
  * `self.const_stack` — the tracked-constant shadow stack,
  * `self.block` / `self.index` — current block and cursor,
  * `self.in_consts`   — sticky "previous step produced a tracked constant" flag.

Python exceptions are modelled by `Except PyErr`; Python list indexing and
slice assignment (with negative-index wrapping and clamping) are modelled by
`pyGet` / `pySetItem` / `pyDelItem` / `pySlice` / `pySliceAssign` below.
-/

/-- Python exceptions that the modelled code can raise.  `nonTermination` is
not a Python exception: it is the fuel-exhaustion marker of the loop
embedding (never produced by any run stated in this file). -/
inductive PyErr where
  | indexError
  | typeError
  | zeroDivisionError
  | valueError
  | keyError
  | assertionError
  | nonTermination
deriving DecidableEq, Repr

/-- Opcode names.  The Python source dispatches on `instr.name` strings drawn
from the fixed CPython 3.6 opcode set; we embed the names that the optimizer
mentions as an enumeration, with `other n` standing for any further opcode
(which has no `eval_` handler and is not a jump). -/
inductive OpName where
  | LOAD_CONST
  | UNARY_POSITIVE
  | UNARY_NEGATIVE
  | UNARY_INVERT
  | UNARY_NOT
  | RETURN_VALUE
  | BINARY_ADD
  | BINARY_SUBTRACT
  | BINARY_MULTIPLY
  | BINARY_TRUE_DIVIDE
  | BINARY_FLOOR_DIVIDE
  | BINARY_MODULO
  | BINARY_POWER
  | BINARY_LSHIFT
  | BINARY_RSHIFT
  | BINARY_AND
  | BINARY_OR
  | BINARY_XOR
  | BINARY_SUBSCR
  | BUILD_TUPLE
  | BUILD_LIST
  | BUILD_SET
  | COMPARE_OP
  | UNPACK_SEQUENCE
  | ROT_TWO
  | ROT_THREE
  | NOP
  | POP_JUMP_IF_FALSE
  | POP_JUMP_IF_TRUE
  | JUMP_IF_FALSE_OR_POP
  | JUMP_IF_TRUE_OR_POP
  | JUMP_ABSOLUTE
  | JUMP_FORWARD
  | other (n : Nat)
deriving DecidableEq, Repr

/-- Instruction argument.  In the Python source `instr.arg` is either unset,
a plain integer (constant index, arity, comparison code), or a
`bytecode.Label`.  Labels name blocks (`lbl b` refers to block `b`);
`newLbl k` is a label synthesized during the pass by `code.create_label`
(recorded in a side table and resolved by the external assembler, never by
the engine — spec §4.4.8/§9). -/
inductive Arg where
  | noArg
  | num (n : Nat)
  | lbl (b : Nat)
  | newLbl (k : Nat)
deriving DecidableEq, Repr

/-- A `bytecode.Instr`: line number, opcode name, optional argument. -/
structure Instr where
  lineno : Nat
  name : OpName
  arg : Arg
deriving DecidableEq, Repr

/-- Source `instr.replace(name, arg)` from the `bytecode` module: same line number,
new name and argument. -/
def Instr.replace (i : Instr) (name : OpName) (arg : Arg) : Instr :=
  { lineno := i.lineno, name := name, arg := arg }

/-- Source `instr.replace_arg(arg)`: same line number and name, new argument. -/
def Instr.replace_arg (i : Instr) (arg : Arg) : Instr :=
  { lineno := i.lineno, name := i.name, arg := arg }

/-- Modelled from the spec: the `bytecode` module's `Instr.is_cond_jump`
(the module itself is not under `src/`).  Conditional jumps of the
catalogue (§4.4.8): the jump-or-pop pair and the pop-jump pair. -/
def Instr.is_cond_jump (i : Instr) : Bool :=
  match i.name with
  | .POP_JUMP_IF_FALSE | .POP_JUMP_IF_TRUE
  | .JUMP_IF_FALSE_OR_POP | .JUMP_IF_TRUE_OR_POP => true
  | _ => false

/-- Modelled from the spec: the `bytecode` module's `Instr.is_jump`:
conditional jumps plus the unconditional `JUMP_ABSOLUTE`/`JUMP_FORWARD`. -/
def Instr.is_jump (i : Instr) : Bool :=
  match i.name with
  | .JUMP_ABSOLUTE | .JUMP_FORWARD => true
  | _ => i.is_cond_jump

/-- Fragment of the Python value universe that constants range over.
Python floats are modelled as exact rationals (`rat`): the claims under
study never compare float values, only whether host operations succeed or
raise.  `frozen` models `frozenset(items)` (set semantics abstracted to the
item list; no claim compares frozenset values). -/
inductive Value where
  | int (n : Int)
  | rat (q : ℚ)
  | str (s : String)
  | tuple (l : List Value)
  | frozen (l : List Value)

/-- Source `JUMPS_ON_TRUE = frozenset(('POP_JUMP_IF_TRUE', 'JUMP_IF_TRUE_OR_POP'))`. -/
def JUMPS_ON_TRUE (n : OpName) : Bool :=
  match n with
  | .POP_JUMP_IF_TRUE | .JUMP_IF_TRUE_OR_POP => true
  | _ => false

/-- Source `PyCmp_IN = 6`. -/
def PyCmp_IN : Nat := 6
/-- Source `PyCmp_NOT_IN = 7`. -/
def PyCmp_NOT_IN : Nat := 7
/-- Source `PyCmp_IS = 8`. -/
def PyCmp_IS : Nat := 8
/-- Source `PyCmp_IS_NOT = 9`. -/
def PyCmp_IS_NOT : Nat := 9

/-- The `NOT_PyCmp` dictionary: in↔not-in, is↔is-not; `none` for keys not in
the dict. -/
def NOT_PyCmp (n : Nat) : Option Nat :=
  if n = PyCmp_IN then some PyCmp_NOT_IN
  else if n = PyCmp_NOT_IN then some PyCmp_IN
  else if n = PyCmp_IS then some PyCmp_IS_NOT
  else if n = PyCmp_IS_NOT then some PyCmp_IS
  else none

/-! ### Python list primitives -/

/-- Python item read `l[i]`: a negative index wraps once by `+ len(l)`;
out of range raises `IndexError`. -/
def pyGet {α : Type} (l : List α) (i : Int) : Except PyErr α :=
  let j : Int := if i < 0 then i + l.length else i
  if j < 0 then .error .indexError
  else
    match l.get? j.toNat with
    | some a => .ok a
    | none => .error .indexError

/-- Python item write `l[i] = a` (same index rules as `pyGet`). -/
def pySetItem {α : Type} (l : List α) (i : Int) (a : α) : Except PyErr (List α) :=
  let j : Int := if i < 0 then i + l.length else i
  if j < 0 then .error .indexError
  else if j < l.length then .ok (l.set j.toNat a)
  else .error .indexError

/-- Python item deletion `del l[i]` (same index rules as `pyGet`). -/
def pyDelItem {α : Type} (l : List α) (i : Int) : Except PyErr (List α) :=
  let j : Int := if i < 0 then i + l.length else i
  if j < 0 then .error .indexError
  else if j < l.length then .ok (l.eraseIdx j.toNat)
  else .error .indexError

/-- Python slice-bound resolution: negative bounds wrap by `+ len`, then the
result is clamped into `[0, len]`. -/
def pySliceIdx (len : Nat) (i : Int) : Nat :=
  let j : Int := if i < 0 then i + len else i
  if j < 0 then 0 else min j.toNat len

/-- Python slice read `l[a:b]` (step 1). -/
def pySlice {α : Type} (l : List α) (a b : Int) : List α :=
  (l.take (pySliceIdx l.length b)).drop (pySliceIdx l.length a)

/-- Python slice assignment `l[a:b] = repl` (step 1): replaces the resolved
range by `repl`; when the resolved stop lies before the resolved start the
range is empty and `repl` is inserted at the start position. -/
def pySliceAssign {α : Type} (l : List α) (a b : Int) (repl : List α) : List α :=
  let a' := pySliceIdx l.length a
  let b' := max a' (pySliceIdx l.length b)
  l.take a' ++ repl ++ l.drop b'

/-! ### Host (Python) operations used by the folds

Two's-complement bitwise operations on `Int`, as Python defines them. -/

/-- Python `~a = -a - 1`. -/
def intNot (a : Int) : Int := -a - 1

/-- Two's-complement bitwise and on `Int`. -/
def intLand : Int → Int → Int
  | .ofNat m, .ofNat n => .ofNat (Nat.land m n)
  | .ofNat m, .negSucc n => .ofNat (Nat.ldiff m n)
  | .negSucc m, .ofNat n => .ofNat (Nat.ldiff n m)
  | .negSucc m, .negSucc n => .negSucc (Nat.lor m n)

/-- Two's-complement bitwise or on `Int`. -/
def intLor : Int → Int → Int
  | .ofNat m, .ofNat n => .ofNat (Nat.lor m n)
  | .ofNat m, .negSucc n => .negSucc (Nat.ldiff n m)
  | .negSucc m, .ofNat n => .negSucc (Nat.ldiff m n)
  | .negSucc m, .negSucc n => .negSucc (Nat.land m n)

/-- Two's-complement bitwise xor on `Int`. -/
def intLxor : Int → Int → Int
  | .ofNat m, .ofNat n => .ofNat (Nat.xor m n)
  | .ofNat m, .negSucc n => .negSucc (Nat.xor m n)
  | .negSucc m, .ofNat n => .negSucc (Nat.xor m n)
  | .negSucc m, .negSucc n => .ofNat (Nat.xor m n)

/-- Numeric view of a value: the rational it denotes and whether it is a
float (`rat`).  `none` for non-numeric values. -/
def Value.toQ : Value → Option (ℚ × Bool)
  | .int n => some ((n : ℚ), false)
  | .rat q => some (q, true)
  | _ => none

/-- Source `operator.pos`: identity on numbers, `TypeError` otherwise. -/
def py_pos : Value → Except PyErr Value
  | .int n => .ok (.int n)
  | .rat q => .ok (.rat q)
  | _ => .error .typeError

/-- Source `operator.neg`. -/
def py_neg : Value → Except PyErr Value
  | .int n => .ok (.int (-n))
  | .rat q => .ok (.rat (-q))
  | _ => .error .typeError

/-- Source `operator.invert`: defined on ints only. -/
def py_invert : Value → Except PyErr Value
  | .int n => .ok (.int (intNot n))
  | _ => .error .typeError

/-- Source `operator.add`: ints, mixed numerics (float result), strings, tuples. -/
def py_add (a b : Value) : Except PyErr Value :=
  match a, b with
  | .int x, .int y => .ok (.int (x + y))
  | .str x, .str y => .ok (.str (x ++ y))
  | .tuple x, .tuple y => .ok (.tuple (x ++ y))
  | a, b =>
    match a.toQ, b.toQ with
    | some (x, _), some (y, _) => .ok (.rat (x + y))
    | _, _ => .error .typeError

/-- Source `operator.sub`. -/
def py_sub (a b : Value) : Except PyErr Value :=
  match a, b with
  | .int x, .int y => .ok (.int (x - y))
  | a, b =>
    match a.toQ, b.toQ with
    | some (x, _), some (y, _) => .ok (.rat (x - y))
    | _, _ => .error .typeError

/-- Source `operator.mul`: numbers, and sequence repetition for str/tuple. -/
def py_mul (a b : Value) : Except PyErr Value :=
  match a, b with
  | .int x, .int y => .ok (.int (x * y))
  | .str s, .int n | .int n, .str s =>
      .ok (.str (String.join (List.replicate n.toNat s)))
  | .tuple l, .int n | .int n, .tuple l =>
      .ok (.tuple (List.flatten (List.replicate n.toNat l)))
  | a, b =>
    match a.toQ, b.toQ with
    | some (x, _), some (y, _) => .ok (.rat (x * y))
    | _, _ => .error .typeError

/-- Source `operator.truediv`: float result; `ZeroDivisionError` on zero divisor. -/
def py_truediv (a b : Value) : Except PyErr Value :=
  match a.toQ, b.toQ with
  | some (x, _), some (y, _) =>
      if y = 0 then .error .zeroDivisionError else .ok (.rat (x / y))
  | _, _ => .error .typeError

/-- Source `operator.floordiv`: floor division; int result for int operands, float
result when a float is involved. -/
def py_floordiv (a b : Value) : Except PyErr Value :=
  match a, b with
  | .int x, .int y =>
      if y = 0 then .error .zeroDivisionError else .ok (.int (Int.fdiv x y))
  | a, b =>
    match a.toQ, b.toQ with
    | some (x, _), some (y, _) =>
        if y = 0 then .error .zeroDivisionError else .ok (.rat ((⌊x / y⌋ : Int) : ℚ))
    | _, _ => .error .typeError

/-- Source `operator.mod` on numbers (Python `%`: result has the divisor's sign);
string formatting is not modelled (no claim folds a `%` format). -/
def py_mod (a b : Value) : Except PyErr Value :=
  match a, b with
  | .int x, .int y =>
      if y = 0 then .error .zeroDivisionError else .ok (.int (Int.fmod x y))
  | a, b =>
    match a.toQ, b.toQ with
    | some (x, _), some (y, _) =>
        if y = 0 then .error .zeroDivisionError else .ok (.rat (x - y * ((⌊x / y⌋ : Int) : ℚ)))
    | _, _ => .error .typeError

/-- Source `operator.pow` for integral exponents (a non-integral float exponent is
not modelled and treated as a host error; no claim depends on it).
A negative exponent yields a float; `0 ** negative` raises. -/
def py_pow (a b : Value) : Except PyErr Value :=
  match a.toQ, b.toQ with
  | some (x, xf), some (y, _) =>
      if y.den ≠ 1 then .error .typeError
      else
        let e : Int := y.num
        if 0 ≤ e then
          match a with
          | .int n => if xf then .ok (.rat (x ^ e.toNat)) else .ok (.int (n ^ e.toNat))
          | _ => .ok (.rat (x ^ e.toNat))
        else if x = 0 then .error .zeroDivisionError
        else .ok (.rat (x⁻¹ ^ (-e).toNat))
  | _, _ => .error .typeError

/-- Source `operator.lshift`: ints only; negative shift count raises `ValueError`. -/
def py_lshift (a b : Value) : Except PyErr Value :=
  match a, b with
  | .int x, .int y =>
      if y < 0 then .error .valueError else .ok (.int (x * (2 ^ y.toNat)))
  | _, _ => .error .typeError

/-- Source `operator.rshift`: arithmetic shift = floor division by `2 ** y`. -/
def py_rshift (a b : Value) : Except PyErr Value :=
  match a, b with
  | .int x, .int y =>
      if y < 0 then .error .valueError else .ok (.int (Int.fdiv x (2 ^ y.toNat)))
  | _, _ => .error .typeError

/-- Source `operator.and_` on ints. -/
def py_and (a b : Value) : Except PyErr Value :=
  match a, b with
  | .int x, .int y => .ok (.int (intLand x y))
  | _, _ => .error .typeError

/-- Source `operator.or_` on ints. -/
def py_or (a b : Value) : Except PyErr Value :=
  match a, b with
  | .int x, .int y => .ok (.int (intLor x y))
  | _, _ => .error .typeError

/-- Source `operator.xor` on ints. -/
def py_xor (a b : Value) : Except PyErr Value :=
  match a, b with
  | .int x, .int y => .ok (.int (intLxor x y))
  | _, _ => .error .typeError

/-- Source `operator.getitem` on tuples and strings with an int index (Python
negative-index wrapping; `IndexError` out of range; `TypeError` on a
non-int index or non-subscriptable value). -/
def py_getitem (a b : Value) : Except PyErr Value :=
  match a, b with
  | .tuple l, .int i => pyGet l i
  | .str s, .int i =>
      match pyGet s.data i with
      | .ok c => .ok (.str (String.mk [c]))
      | .error e => .error e
  | _, _ => .error .typeError

/-! ### Optimizer state and handlers (`_CodePeepholeOptimizer`) -/

/-- The mutable state of a `_CodePeepholeOptimizer` during `_optimize`:
`blocks`/`consts` are `self.code`, `bi` identifies `self.block` inside
`self.code`, `index` is the cursor (a Python int: it can go negative),
`labelCtr` numbers the labels created by `self.code.create_label`. -/
structure OptState where
  blocks : List (List Instr)
  consts : List Value
  const_stack : List Value
  bi : Nat
  index : Int
  in_consts : Bool
  labelCtr : Nat

/-- Source `self.block`: the block object fetched by `_optimize`, an element of
`self.code`'s block list. -/
def OptState.block (s : OptState) : List Instr := s.blocks.getD s.bi []

/-- Writing through the `self.block` reference mutates the corresponding
element of `self.code`'s block list. -/
def OptState.setBlock (s : OptState) (b : List Instr) : OptState :=
  { s with blocks := s.blocks.set s.bi b }

/-- Source `check_result`: `len(value) <= 20` for values with a length, `True` for
values where `len` raises `TypeError` (numbers). -/
def check_result (value : Value) : Bool :=
  match value with
  | .str s => s.length ≤ 20
  | .tuple l => l.length ≤ 20
  | .frozen l => l.length ≤ 20
  | .int _ => true
  | .rat _ => true

/-- Source `replace_load_const(nconst, instr, result)`: append `result` to the
constants table, splice `block[index-nconst-1:index]` to a single
`LOAD_CONST` of the new constant, rewind the cursor by `nconst`, drop the
`nconst` consumed tracked values and push `result`, setting `in_consts`. -/
def replace_load_const (nconst : Nat) (instr : Instr) (result : Value)
    (s : OptState) : OptState :=
  let const := s.consts.length
  let s1 := { s with consts := s.consts ++ [result], in_consts := true }
  let load_const := instr.replace .LOAD_CONST (.num const)
  let start : Int := s1.index - nconst - 1
  let s2 := s1.setBlock (pySliceAssign s1.block start s1.index [load_const])
  let s3 := { s2 with index := s2.index - nconst }
  let s4 :=
    if nconst ≠ 0 then
      { s3 with const_stack :=
          pySliceAssign s3.const_stack (-(nconst : Int)) s3.const_stack.length [] }
    else s3
  { s4 with const_stack := s4.const_stack ++ [result], in_consts := true }

/-- Source `eval_LOAD_CONST`: push `self.code.consts[instr.arg]` on the tracked
stack and set `in_consts` (an out-of-range constant index raises, uncaught;
a non-int argument is a `TypeError`). -/
def eval_LOAD_CONST (instr : Instr) (s : OptState) : Except PyErr OptState :=
  match instr.arg with
  | .num n =>
      match s.consts.get? n with
      | some value =>
          .ok { s with in_consts := true, const_stack := s.const_stack ++ [value] }
      | none => .error .indexError
  | _ => .error .typeError

/-- Source `unaryop(op, instr)`: read `const_stack[-1]` and apply `op`, catching
only `IndexError`; drop the fold when the result fails `check_result`;
otherwise `replace_load_const(1, instr, result)`.  Note the `try` block
catches `IndexError` alone, so any other exception raised by `op`
propagates. -/
def unaryop (op : Value → Except PyErr Value) (instr : Instr) (s : OptState) :
    Except PyErr OptState :=
  match pyGet s.const_stack (-1) with
  | .error _ => .ok s
  | .ok value =>
      match op value with
      | .error .indexError => .ok s
      | .error e => .error e
      | .ok result =>
          if ¬ check_result result then .ok s
          else .ok (replace_load_const 1 instr result s)

/-- Source `eval_UNARY_POSITIVE`. -/
def eval_UNARY_POSITIVE (instr : Instr) (s : OptState) : Except PyErr OptState :=
  unaryop py_pos instr s

/-- Source `eval_UNARY_NEGATIVE`. -/
def eval_UNARY_NEGATIVE (instr : Instr) (s : OptState) : Except PyErr OptState :=
  unaryop py_neg instr s

/-- Source `eval_UNARY_INVERT`. -/
def eval_UNARY_INVERT (instr : Instr) (s : OptState) : Except PyErr OptState :=
  unaryop py_invert instr s

/-- Source `eval_UNARY_NOT`: reads `self.block[self.index]` (unguarded: raises
`IndexError` when the cursor is past the end of the block); if the next
instruction is `POP_JUMP_IF_FALSE`, splice the pair to a single
`POP_JUMP_IF_TRUE` with the same target and rewind the cursor. -/
def eval_UNARY_NOT (instr : Instr) (s : OptState) : Except PyErr OptState :=
  match pyGet s.block s.index with
  | .error e => .error e
  | .ok next_instr =>
      if next_instr.name = .POP_JUMP_IF_FALSE then
        let instr2 := instr.replace .POP_JUMP_IF_TRUE next_instr.arg
        let s1 := s.setBlock (pySliceAssign s.block (s.index - 1) (s.index + 1) [instr2])
        .ok { s1 with index := s1.index - 1 }
      else .ok s

/-- Source `eval_RETURN_VALUE`: with fewer than two instructions after the cursor,
do nothing; else if `block[index+1]` is `RETURN_VALUE` (the pattern
`RETURN_VALUE; <x>; RETURN_VALUE`), delete `block[index:index+2]`; else if
`block[index]` is an unconditional jump, delete it. -/
def eval_RETURN_VALUE (_instr : Instr) (s : OptState) : Except PyErr OptState :=
  let n : Int := (s.block.length : Int) - s.index
  if n < 2 then .ok s
  else
    match pyGet s.block (s.index + 1) with
    | .error e => .error e
    | .ok instr3 =>
        if instr3.name = .RETURN_VALUE then
          .ok (s.setBlock (pySliceAssign s.block s.index (s.index + 2) []))
        else
          match pyGet s.block s.index with
          | .error e => .error e
          | .ok next_instr =>
              if next_instr.name = .JUMP_ABSOLUTE ∨ next_instr.name = .JUMP_FORWARD then
                match pyDelItem s.block s.index with
                | .error e => .error e
                | .ok b => .ok (s.setBlock b)
              else .ok s

/-- Source `binop(op, instr)`: read `const_stack[-2]`/`const_stack[-1]` (an
`IndexError` is caught, abandoning the fold), apply `op` catching *every*
exception, apply the size guard, then `replace_load_const(2, ...)`. -/
def binop (op : Value → Value → Except PyErr Value) (instr : Instr)
    (s : OptState) : Except PyErr OptState :=
  match pyGet s.const_stack (-2) with
  | .error _ => .ok s
  | .ok left =>
      match pyGet s.const_stack (-1) with
      | .error _ => .ok s
      | .ok right =>
          match op left right with
          | .error _ => .ok s
          | .ok result =>
              if ¬ check_result result then .ok s
              else .ok (replace_load_const 2 instr result s)

/-- Source `eval_BINARY_ADD`. -/
def eval_BINARY_ADD (instr : Instr) (s : OptState) : Except PyErr OptState :=
  binop py_add instr s

/-- Source `eval_BINARY_SUBTRACT`. -/
def eval_BINARY_SUBTRACT (instr : Instr) (s : OptState) : Except PyErr OptState :=
  binop py_sub instr s

/-- Source `eval_BINARY_MULTIPLY`. -/
def eval_BINARY_MULTIPLY (instr : Instr) (s : OptState) : Except PyErr OptState :=
  binop py_mul instr s

/-- Source `eval_BINARY_TRUE_DIVIDE`. -/
def eval_BINARY_TRUE_DIVIDE (instr : Instr) (s : OptState) : Except PyErr OptState :=
  binop py_truediv instr s

/-- Source `eval_BINARY_FLOOR_DIVIDE`. -/
def eval_BINARY_FLOOR_DIVIDE (instr : Instr) (s : OptState) : Except PyErr OptState :=
  binop py_floordiv instr s

/-- Source `eval_BINARY_MODULO`. -/
def eval_BINARY_MODULO (instr : Instr) (s : OptState) : Except PyErr OptState :=
  binop py_mod instr s

/-- Source `eval_BINARY_POWER`. -/
def eval_BINARY_POWER (instr : Instr) (s : OptState) : Except PyErr OptState :=
  binop py_pow instr s

/-- Source `eval_BINARY_LSHIFT`. -/
def eval_BINARY_LSHIFT (instr : Instr) (s : OptState) : Except PyErr OptState :=
  binop py_lshift instr s

/-- Source `eval_BINARY_RSHIFT`. -/
def eval_BINARY_RSHIFT (instr : Instr) (s : OptState) : Except PyErr OptState :=
  binop py_rshift instr s

/-- Source `eval_BINARY_AND`. -/
def eval_BINARY_AND (instr : Instr) (s : OptState) : Except PyErr OptState :=
  binop py_and instr s

/-- Source `eval_BINARY_OR`. -/
def eval_BINARY_OR (instr : Instr) (s : OptState) : Except PyErr OptState :=
  binop py_or instr s

/-- Source `eval_BINARY_XOR`. -/
def eval_BINARY_XOR (instr : Instr) (s : OptState) : Except PyErr OptState :=
  binop py_xor instr s

/-- Source `eval_BINARY_SUBSCR`. -/
def eval_BINARY_SUBSCR (instr : Instr) (s : OptState) : Except PyErr OptState :=
  binop py_getitem instr s

/-- Source `replace_container_of_consts`: take `const_stack[-instr.arg:]`, build the
container, and `replace_load_const(instr.arg, instr, value)`. -/
def replace_container_of_consts (instr : Instr)
    (container_type : List Value → Value) (s : OptState) : Except PyErr OptState :=
  match instr.arg with
  | .num n =>
      let items := pySlice s.const_stack (-(n : Int)) s.const_stack.length
      .ok (replace_load_const n instr (container_type items) s)
  | _ => .error .typeError

/-- Source `build_tuple_unpack_seq(instr)`: with arity `1 ≤ instr.arg ≤ 3` and the
next instruction (read unguarded — raises `IndexError` past the end of a
block) an `UNPACK_SEQUENCE` of matching arity: delete both for arity 1;
splice to `ROT_TWO` (arity 2) or `ROT_THREE; ROT_TWO` (arity 3), rewinding
the cursor and clearing the tracked stack in the latter two cases only. -/
def build_tuple_unpack_seq (instr : Instr) (s : OptState) : Except PyErr OptState :=
  match instr.arg with
  | .num n =>
      if ¬ (1 ≤ n ∧ n ≤ 3) then .ok s
      else
        match pyGet s.block s.index with
        | .error e => .error e
        | .ok next_instr =>
            if ¬ (next_instr.name = .UNPACK_SEQUENCE ∧ next_instr.arg = .num n) then
              .ok s
            else if n = 1 then
              .ok (s.setBlock (pySliceAssign s.block (s.index - 1) (s.index + 1) []))
            else if n = 2 then
              let rot2 : Instr := ⟨instr.lineno, .ROT_TWO, .noArg⟩
              let s1 := s.setBlock (pySliceAssign s.block (s.index - 1) (s.index + 1) [rot2])
              .ok { s1 with index := s1.index - 1, const_stack := [] }
            else
              let rot3 : Instr := ⟨instr.lineno, .ROT_THREE, .noArg⟩
              let rot2 : Instr := ⟨instr.lineno, .ROT_TWO, .noArg⟩
              let s1 := s.setBlock (pySliceAssign s.block (s.index - 1) (s.index + 1) [rot3, rot2])
              .ok { s1 with index := s1.index - 1, const_stack := [] }
  | _ => .error .typeError

/-- Source `build_tuple(instr, container_type)`: fold a container build only when
enough constants are tracked and the next instruction (read unguarded) is a
`COMPARE_OP` with an `in`/`not in` argument; returns Python's
`True`/`None` as a `Bool` alongside the state. -/
def build_tuple (instr : Instr) (container_type : List Value → Value)
    (s : OptState) : Except PyErr (Bool × OptState) :=
  match instr.arg with
  | .num n =>
      if n > s.const_stack.length then .ok (false, s)
      else
        match pyGet s.block s.index with
        | .error e => .error e
        | .ok next_instr =>
            if next_instr.name ≠ .COMPARE_OP then .ok (false, s)
            else if ¬ (next_instr.arg = .num PyCmp_IN ∨ next_instr.arg = .num PyCmp_NOT_IN) then
              .ok (false, s)
            else
              match replace_container_of_consts instr container_type s with
              | .error e => .error e
              | .ok s1 => .ok (true, s1)
  | _ => .error .typeError

/-- Source `eval_BUILD_TUPLE`: nothing for arity 0; fold to a tuple constant when
enough constants are tracked, otherwise try the tuple/unpack pattern. -/
def eval_BUILD_TUPLE (instr : Instr) (s : OptState) : Except PyErr OptState :=
  match instr.arg with
  | .noArg => .ok s
  | .num n =>
      if n = 0 then .ok s
      else if n ≤ s.const_stack.length then
        replace_container_of_consts instr Value.tuple s
      else build_tuple_unpack_seq instr s
  | _ => .error .typeError

/-- Source `eval_BUILD_LIST`: nothing for arity 0; `build_tuple` (with a *tuple*
container) in the containment-test context, else the tuple/unpack pattern. -/
def eval_BUILD_LIST (instr : Instr) (s : OptState) : Except PyErr OptState :=
  match instr.arg with
  | .noArg => .ok s
  | .num n =>
      if n = 0 then .ok s
      else
        match build_tuple instr Value.tuple s with
        | .error e => .error e
        | .ok (folded, s1) =>
            if ¬ folded then build_tuple_unpack_seq instr s1 else .ok s1
  | _ => .error .typeError

/-- Source `eval_BUILD_SET`: nothing for arity 0; `build_tuple` with a `frozenset`
container in the containment-test context. -/
def eval_BUILD_SET (instr : Instr) (s : OptState) : Except PyErr OptState :=
  match instr.arg with
  | .noArg => .ok s
  | .num n =>
      if n = 0 then .ok s
      else
        match build_tuple instr Value.frozen s with
        | .error e => .error e
        | .ok (_, s1) => .ok s1
  | _ => .error .typeError

/-- Source `eval_COMPARE_OP`: for an `in`/`not in`/`is`/`is not` comparison whose
next instruction (here the read *is* guarded by `try/except IndexError`) is
`UNARY_NOT`, splice the pair to the inverted comparison. -/
def eval_COMPARE_OP (instr : Instr) (s : OptState) : Except PyErr OptState :=
  match instr.arg with
  | .num a =>
      match NOT_PyCmp a with
      | none => .ok s
      | some new_arg =>
          match pyGet s.block s.index with
          | .error _ => .ok s
          | .ok next_instr =>
              if next_instr.name ≠ .UNARY_NOT then .ok s
              else
                let instr2 := instr.replace_arg (.num new_arg)
                .ok (s.setBlock (pySliceAssign s.block (s.index - 1) (s.index + 1) [instr2]))
  | _ => .ok s

/-- Resolution `self.code[label]` of a label to its block.  Modelled from the
spec: labels are symbolic references resolved by the program model (§3); a
`lbl b` names block `b`; an out-of-range or engine-synthesized label cannot
be resolved (`KeyError`); a non-label subscript is a `TypeError`. -/
def resolveLabel (s : OptState) (a : Arg) : Except PyErr (List Instr) :=
  match a with
  | .lbl b =>
      match s.blocks.get? b with
      | some blk => .ok blk
      | none => .error .keyError
  | .newLbl _ => .error .keyError
  | _ => .error .typeError

/-- Source `self.code.create_label(label, 1)`.  Modelled from the spec: creates a
fresh label pointing one instruction past the given label (§6(d)); the
engine records it in a side table (here: a counter) and never resolves it
itself (§9). -/
def create_label (s : OptState) : Arg × OptState :=
  (.newLbl s.labelCtr, { s with labelCtr := s.labelCtr + 1 })

/-- Source `optimize_jump_to_cond_jump(instr)`: replace a jump-to-`RETURN_VALUE` by
that return, and chase a jump whose target is itself an unconditional jump
(one hop), converting `JUMP_FORWARD` to `JUMP_ABSOLUTE`.  The `assert
isinstance(jump_label, bytecode.Label)` is modelled as an
`AssertionError` on a non-label argument. -/
def optimize_jump_to_cond_jump (instr : Instr) (s : OptState) :
    Except PyErr OptState :=
  match instr.arg with
  | .lbl _ | .newLbl _ =>
      match resolveLabel s instr.arg with
      | .error e => .error e
      | .ok target_block =>
          match pyGet target_block 0 with
          | .error e => .error e
          | .ok target_instr =>
              if (instr.name = .JUMP_FORWARD ∨ instr.name = .JUMP_ABSOLUTE)
                  ∧ target_instr.name = .RETURN_VALUE then
                match pySetItem s.block (s.index - 1) target_instr with
                | .error e => .error e
                | .ok b => .ok (s.setBlock b)
              else if target_instr.name = .JUMP_FORWARD ∨ target_instr.name = .JUMP_ABSOLUTE then
                let jump_target2 := target_instr.arg
                let name := if instr.name = .JUMP_FORWARD then .JUMP_ABSOLUTE else instr.name
                let instr2 := instr.replace name jump_target2
                match pySetItem s.block (s.index - 1) instr2 with
                | .error e => .error e
                | .ok b => .ok (s.setBlock b)
              else .ok s
  | _ => .error .assertionError

/-- Source `jump_if_or_pop(instr)`: when the target's first instruction is itself a
conditional jump, either retarget (same polarity) or rewrite to a plain
pop-jump aimed at a freshly created label (opposite polarity); otherwise
fall back to `optimize_jump_to_cond_jump`. -/
def jump_if_or_pop (instr : Instr) (s : OptState) : Except PyErr OptState :=
  match resolveLabel s instr.arg with
  | .error e => .error e
  | .ok target_block =>
      match pyGet target_block 0 with
      | .error e => .error e
      | .ok target_instr =>
          if ¬ target_instr.is_cond_jump then
            optimize_jump_to_cond_jump instr s
          else if (JUMPS_ON_TRUE target_instr.name) = (JUMPS_ON_TRUE instr.name) then
            let target2 := target_instr.arg
            let instr2 := instr.replace target_instr.name target2
            match pySetItem s.block (s.index - 1) instr2 with
            | .error e => .error e
            | .ok b => .ok { s.setBlock b with index := s.index - 1 }
          else
            let opname : OpName :=
              if JUMPS_ON_TRUE instr.name then .POP_JUMP_IF_TRUE else .POP_JUMP_IF_FALSE
            let (new_label, s1) := create_label s
            let instr2 := instr.replace opname new_label
            match pySetItem s1.block (s1.index - 1) instr2 with
            | .error e => .error e
            | .ok b => .ok { s1.setBlock b with index := s1.index - 1 }

/-- Source `eval_JUMP_IF_FALSE_OR_POP`. -/
def eval_JUMP_IF_FALSE_OR_POP (instr : Instr) (s : OptState) : Except PyErr OptState :=
  jump_if_or_pop instr s

/-- Source `eval_JUMP_IF_TRUE_OR_POP`. -/
def eval_JUMP_IF_TRUE_OR_POP (instr : Instr) (s : OptState) : Except PyErr OptState :=
  jump_if_or_pop instr s

/-- The handler-dispatch of `optimize_block`: `getattr(self, 'eval_' +
instr.name)` where defined; otherwise, for jump instructions,
`optimize_jump_to_cond_jump`; otherwise no effect. -/
def dispatch (instr : Instr) (s : OptState) : Except PyErr OptState :=
  match instr.name with
  | .LOAD_CONST => eval_LOAD_CONST instr s
  | .UNARY_POSITIVE => eval_UNARY_POSITIVE instr s
  | .UNARY_NEGATIVE => eval_UNARY_NEGATIVE instr s
  | .UNARY_INVERT => eval_UNARY_INVERT instr s
  | .UNARY_NOT => eval_UNARY_NOT instr s
  | .RETURN_VALUE => eval_RETURN_VALUE instr s
  | .BINARY_ADD => eval_BINARY_ADD instr s
  | .BINARY_SUBTRACT => eval_BINARY_SUBTRACT instr s
  | .BINARY_MULTIPLY => eval_BINARY_MULTIPLY instr s
  | .BINARY_TRUE_DIVIDE => eval_BINARY_TRUE_DIVIDE instr s
  | .BINARY_FLOOR_DIVIDE => eval_BINARY_FLOOR_DIVIDE instr s
  | .BINARY_MODULO => eval_BINARY_MODULO instr s
  | .BINARY_POWER => eval_BINARY_POWER instr s
  | .BINARY_LSHIFT => eval_BINARY_LSHIFT instr s
  | .BINARY_RSHIFT => eval_BINARY_RSHIFT instr s
  | .BINARY_AND => eval_BINARY_AND instr s
  | .BINARY_OR => eval_BINARY_OR instr s
  | .BINARY_XOR => eval_BINARY_XOR instr s
  | .BINARY_SUBSCR => eval_BINARY_SUBSCR instr s
  | .BUILD_TUPLE => eval_BUILD_TUPLE instr s
  | .BUILD_LIST => eval_BUILD_LIST instr s
  | .BUILD_SET => eval_BUILD_SET instr s
  | .COMPARE_OP => eval_COMPARE_OP instr s
  | .JUMP_IF_FALSE_OR_POP => eval_JUMP_IF_FALSE_OR_POP instr s
  | .JUMP_IF_TRUE_OR_POP => eval_JUMP_IF_TRUE_OR_POP instr s
  | _ => if instr.is_jump then optimize_jump_to_cond_jump instr s else .ok s

/-- One iteration of the `optimize_block` loop (driven by the `disassemble`
generator): if the cursor is before the end of the current block, read the
instruction at the cursor (Python indexing: a negative cursor wraps),
advance the cursor, clear the tracked stack unless the previous step set
`in_consts`, reset the flag, and dispatch.  Returns `none` when the loop
is over. -/
def step (s : OptState) : Except PyErr (Option OptState) :=
  if s.index < (s.block.length : Int) then
    match pyGet s.block s.index with
    | .error e => .error e
    | .ok instr =>
        let s1 := { s with index := s.index + 1 }
        let s2 := if ¬ s1.in_consts then { s1 with const_stack := [] } else s1
        let s3 := { s2 with in_consts := false }
        match dispatch instr s3 with
        | .error e => .error e
        | .ok s4 => .ok (some s4)
  else .ok none

/-- Source `optimize_block(block)`: iterate `step` to completion.  `fuel` bounds the
number of iterations of the shallow embedding; exhaustion yields the
`nonTermination` marker. -/
def optimize_block (fuel : Nat) (s : OptState) : Except PyErr OptState :=
  match fuel with
  | 0 => .error .nonTermination
  | fuel + 1 =>
      match step s with
      | .error e => .error e
      | .ok none => .ok s
      | .ok (some s1) => optimize_block fuel s1

/-- The block loop of `_optimize`: process blocks in order; entering a block
resets the cursor to 0 (`disassemble`), while `const_stack` and `in_consts`
carry over from the previous block. -/
def optimize_blocks (fuel : Nat) (s : OptState) : Except PyErr OptState :=
  match fuel with
  | 0 => .error .nonTermination
  | fuel + 1 =>
      if s.bi < s.blocks.length then
        match optimize_block fuel { s with index := 0 } with
        | .error e => .error e
        | .ok s1 => optimize_blocks fuel { s1 with bi := s1.bi + 1 }
      else .ok s

/-- Source `_optimize(code)`: fresh `const_stack` (and, from `__init__` of the
per-call optimizer instance, `in_consts = False`), then the block loop. -/
def pyOptimize (fuel : Nat) (blocks : List (List Instr)) (consts : List Value) :
    Except PyErr OptState :=
  optimize_blocks fuel
    { blocks := blocks, consts := consts, const_stack := [], bi := 0,
      index := 0, in_consts := false, labelCtr := 0 }

/-! ### The outer `optimize` entry point and its applicability guard -/

/-- Source `MIMICK_C_IMPL = False` — the module-level configuration constant. -/
def MIMICK_C_IMPL : Bool := false

/-- Source `opcode.opmap['RETURN_VALUE']` in CPython 3.x. -/
def RETURN_VALUE_OPCODE : Nat := 83

/-- Modelled from the spec: the input program value (spec §6) — the
structured block/constants form consumed by the engine together with the
encoded metadata (`co_code` bytes, `co_lnotab` line table) that the
applicability guard inspects.  The `bytecode` module's
disassembler/assembler, which relate the two views, are not under `src/`. -/
structure CodeObj where
  co_code : List Nat
  co_lnotab : List Nat
  blocks : List (List Instr)
  consts : List Value

/-- Source `check_bypass_optim(code_obj)`: `False` immediately unless
`MIMICK_C_IMPL`; otherwise bypass when the line table contains the 255
gap marker, when the encoded size exceeds 32700, or when the last byte of
the encoded stream is not the `RETURN_VALUE` opcode (reading it raises on
an empty stream, as in Python). -/
def check_bypass_optim (mimick : Bool) (co : CodeObj) : Except PyErr Bool :=
  if ¬ mimick then .ok false
  else if 255 ∈ co.co_lnotab then .ok true
  else if co.co_code.length > 32700 then .ok true
  else
    match pyGet co.co_code ((co.co_code.length : Int) - 1) with
    | .error e => .error e
    | .ok lastByte =>
        if lastByte ≠ RETURN_VALUE_OPCODE then .ok true else .ok false

/-- Source `optimize(code_obj)`: return the input untouched when the guard bypasses;
otherwise disassemble, run `_optimize`, and assemble.  Modelled from the
spec: disassembly/assembly (external collaborators, §1/§6) are the
structured projection — the output is a program value of the same shape
with the engine's rewritten blocks and constants. -/
def optimize (mimick : Bool) (fuel : Nat) (co : CodeObj) : Except PyErr CodeObj :=
  match check_bypass_optim mimick co with
  | .error e => .error e
  | .ok true => .ok co
  | .ok false =>
      match pyOptimize fuel co.blocks co.consts with
      | .error e => .error e
      | .ok s => .ok { co with blocks := s.blocks, consts := s.consts }

/-! ### Concrete programs and states used by the claims -/

/-- A `LOAD_CONST n` instruction (line 1). -/
def iLC (n : Nat) : Instr := ⟨1, .LOAD_CONST, .num n⟩
/-- A `RETURN_VALUE` instruction. -/
def iRET : Instr := ⟨1, .RETURN_VALUE, .noArg⟩
/-- A `BINARY_ADD` instruction. -/
def iADD : Instr := ⟨1, .BINARY_ADD, .noArg⟩
/-- A `NOP` instruction. -/
def iNOP : Instr := ⟨1, .NOP, .noArg⟩
/-- A `UNARY_NOT` instruction. -/
def iNOT : Instr := ⟨1, .UNARY_NOT, .noArg⟩
/-- A `UNARY_NEGATIVE` instruction. -/
def iNEG : Instr := ⟨1, .UNARY_NEGATIVE, .noArg⟩
/-- A `POP_JUMP_IF_FALSE` instruction targeting block `b`. -/
def iPJIF (b : Nat) : Instr := ⟨1, .POP_JUMP_IF_FALSE, .lbl b⟩
/-- A `POP_JUMP_IF_TRUE` instruction targeting block `b`. -/
def iPJIT (b : Nat) : Instr := ⟨1, .POP_JUMP_IF_TRUE, .lbl b⟩
/-- A `JUMP_FORWARD` instruction targeting block `b`. -/
def iJF (b : Nat) : Instr := ⟨1, .JUMP_FORWARD, .lbl b⟩
/-- A `BUILD_TUPLE n` instruction. -/
def iBT (n : Nat) : Instr := ⟨1, .BUILD_TUPLE, .num n⟩
/-- An `UNPACK_SEQUENCE n` instruction. -/
def iUNP (n : Nat) : Instr := ⟨1, .UNPACK_SEQUENCE, .num n⟩

/-- C1's failing program: its first block ends in `UNARY_NOT` (a label
boundary follows), the second block returns.  Encoded metadata is
irrelevant because `MIMICK_C_IMPL = False` skips the guard. -/
def c1prog : CodeObj :=
  { co_code := [100, 0, 12, 0, 83, 0], co_lnotab := [],
    blocks := [[iLC 0, iNOT], [iRET]], consts := [.int 1] }

/-- C2's input: a foldable program whose encoded stream does not end in the
`RETURN_VALUE` opcode (last byte 0), so the C guard would bypass it. -/
def c2in : CodeObj :=
  { co_code := [100, 0, 100, 1, 23, 0], co_lnotab := [],
    blocks := [[iLC 0, iLC 1, iADD, iRET]], consts := [.int 2, .int 3] }

/-- What the shipped configuration produces for `c2in`: the fold ran. -/
def c2out : CodeObj :=
  { co_code := [100, 0, 100, 1, 23, 0], co_lnotab := [],
    blocks := [[iLC 2, iRET]], consts := [.int 2, .int 3, .int 5] }

/-- A small guard-violating input for the C2 witness (last byte not 83). -/
def c2w : CodeObj :=
  { co_code := [100, 0], co_lnotab := [], blocks := [[iLC 0]], consts := [.int 1] }

/-- C3's state: the tracked constant is the string `"a"`; negating it makes
the host operation raise `TypeError`, which `unaryop` does not catch. -/
def c3state : OptState :=
  { blocks := [[iNEG, iRET]], consts := [.str "a"], const_stack := [.str "a"],
    bi := 0, index := 1, in_consts := false, labelCtr := 0 }

/-- C3 witness state: `push(2); push(0); true_divide` — the spec's
division-by-zero scenario, where `binop` catches the error. -/
def c3divstate : OptState :=
  { blocks := [[iLC 0, iLC 1, ⟨1, .BINARY_TRUE_DIVIDE, .noArg⟩, iRET]],
    consts := [.int 2, .int 0], const_stack := [.int 2, .int 0],
    bi := 0, index := 3, in_consts := false, labelCtr := 0 }

/-- C4's state: `UNARY_NOT` is the last instruction of its block, the cursor
is past the end. -/
def c4state : OptState :=
  { blocks := [[iLC 0, iNOT], [iRET]], consts := [.int 1],
    const_stack := [.int 1], bi := 0, index := 2, in_consts := false, labelCtr := 0 }

/-- C4's second state: `BUILD_TUPLE 2` is the last instruction of its block. -/
def c4state2 : OptState :=
  { blocks := [[iBT 2], [iRET]], consts := [], const_stack := [],
    bi := 0, index := 1, in_consts := false, labelCtr := 0 }

/-- C5 witness state: `push(2); push(3); add; return` with both constants
tracked, cursor just past the `BINARY_ADD`. -/
def c5state : OptState :=
  { blocks := [[iLC 0, iLC 1, iADD, iRET]], consts := [.int 2, .int 3],
    const_stack := [.int 2, .int 3], bi := 0, index := 3,
    in_consts := false, labelCtr := 0 }

/-- C6's counterexample program: the first block ends in `LOAD_CONST`, so
its two tracked constants leak into the second block, whose leading
`BINARY_ADD` then folds with a negative splice start — an insertion. -/
def c6blocks : List (List Instr) := [[iLC 0, iLC 1], [iADD, iNOP, iNOP, iNOP, iRET]]
/-- Constants for `c6blocks`. -/
def c6consts : List Value := [.int 2, .int 3]

/-- C6 witness state: a well-placed binary fold (cursor at 3, two tracked
constants) that shrinks the block. -/
def c6wstate : OptState := c5state

/-- C7's counterexample program: the negation's operand is the tracked
constant pushed by `LOAD_CONST 0`, and `UNARY_NOT` is followed by
`POP_JUMP_IF_FALSE`. -/
def c7blocks : List (List Instr) := [[iLC 0, iNOT, iPJIF 1], [iRET]]
/-- Constants for `c7blocks`. -/
def c7consts : List Value := [.int 1]

/-- C7 handler-level state: cursor just past the `UNARY_NOT`, with the
negation's operand tracked on the constant stack. -/
def c7state : OptState :=
  { blocks := c7blocks, consts := c7consts, const_stack := [.int 1],
    bi := 0, index := 2, in_consts := false, labelCtr := 0 }

/-- C8's first state: `RETURN_VALUE` immediately followed by a
`JUMP_FORWARD` that is the last instruction of the block. -/
def c8state : OptState :=
  { blocks := [[iRET, iJF 1], [iRET]], consts := [], const_stack := [],
    bi := 0, index := 1, in_consts := false, labelCtr := 0 }

/-- C8's second state: `RETURN_VALUE` immediately followed by another
`RETURN_VALUE` (and a trailing `NOP`, so two instructions follow the
cursor and the handler takes its pattern test). -/
def c8state2 : OptState :=
  { blocks := [[iRET, iRET, iNOP]], consts := [], const_stack := [],
    bi := 0, index := 1, in_consts := false, labelCtr := 0 }

/-- C9's counterexample program: `BUILD_TUPLE 1` is immediately followed by
`UNPACK_SEQUENCE 1` with matching arity, but the build's operand is a
tracked constant, so the constant-fold path wins. -/
def c9blocks : List (List Instr) := [[iLC 0, iBT 1, iUNP 1, iRET]]
/-- Constants for `c9blocks`. -/
def c9consts : List Value := [.int 7]

/-- C9 witness state: `BUILD_TUPLE 2` (no tracked constants) followed by
`UNPACK_SEQUENCE 2`. -/
def c9wstate : OptState :=
  { blocks := [[iBT 2, iUNP 2, iRET]], consts := [], const_stack := [],
    bi := 0, index := 1, in_consts := false, labelCtr := 0 }

/-- C10's counterexample program: the first block ends in `LOAD_CONST`; the
second block's `BINARY_ADD` consumes the leaked constants. -/
def c10blocks : List (List Instr) := [[iLC 0, iLC 1], [iADD, iRET]]
/-- Constants for `c10blocks`. -/
def c10consts : List Value := [.int 2, .int 3]

/-- Result of the C5 witness fold: `push(2); push(3); add` became `push(5)`. -/
def c5out : OptState :=
  { blocks := [[iLC 2, iRET]], consts := [.int 2, .int 3, .int 5],
    const_stack := [.int 5], bi := 0, index := 1, in_consts := true, labelCtr := 0 }

/-- Result of the C6 witness dispatch (the same fold, written out). -/
def c6wOut : OptState :=
  { blocks := [[iLC 2, iRET]], consts := [.int 2, .int 3, .int 5],
    const_stack := [.int 5], bi := 0, index := 1, in_consts := true, labelCtr := 0 }

/-- Result of the C7 fusion at `c7state`. -/
def c7out : OptState :=
  { blocks := [[iLC 0, iPJIT 1], [iRET]], consts := [.int 1],
    const_stack := [.int 1], bi := 0, index := 1, in_consts := false, labelCtr := 0 }

/-- Result of the C9 witness rewrite at `c9wstate`. -/
def c9wOut : OptState :=
  { blocks := [[⟨1, .ROT_TWO, .noArg⟩, iRET]], consts := [], const_stack := [],
    bi := 0, index := 0, in_consts := false, labelCtr := 0 }

/-- C10 witness state: a block entered with a stale tracked stack but with
the constant flag unset. -/
def c10wstate : OptState :=
  { blocks := [[iRET, iRET]], consts := [], const_stack := [.int 9],
    bi := 0, index := 0, in_consts := false, labelCtr := 0 }

/-! ### Helper lemmas about the Python list primitives -/

theorem pySliceIdx_le (len : Nat) (i : Int) : pySliceIdx len i ≤ len := by
  simp only [pySliceIdx]
  split_ifs <;> omega

theorem pySliceIdx_eval (len : Nat) (i : Int) :
    (pySliceIdx len i : Int) = max 0 (min (if i < 0 then i + len else i) len) := by
  simp only [pySliceIdx]
  split_ifs <;> push_cast <;> omega

theorem length_pySliceAssign {α : Type} (l : List α) (a b : Int) (repl : List α) :
    ((pySliceAssign l a b repl).length : Int) =
      pySliceIdx l.length a + repl.length
        + (l.length - max (pySliceIdx l.length a) (pySliceIdx l.length b)) := by
  have ha := pySliceIdx_le l.length a
  have hb := pySliceIdx_le l.length b
  simp only [pySliceAssign, List.length_append, List.length_take, List.length_drop]
  push_cast
  omega

theorem pyGet_eq_getElem {α : Type} (l : List α) (i : Int) (j : Nat)
    (hj : (j : Int) = if i < 0 then i + l.length else i) :
    pyGet l i =
      match l[j]? with
      | some a => .ok a
      | none => .error .indexError := by
  simp only [pyGet]
  rw [← hj, if_neg (by omega), List.get?_eq_getElem?]
  have h2 : ((j : Int)).toNat = j := by omega
  rw [h2]

theorem pyGet_ok_nonneg_lt {α : Type} {l : List α} {i : Int} {x : α}
    (h : pyGet l i = .ok x) (h0 : 0 ≤ i) : i < (l.length : Int) := by
  by_contra hc
  rw [pyGet_eq_getElem l i i.toNat (by omega)] at h
  rw [List.getElem?_eq_none (by omega)] at h
  exact absurd h (by simp)

theorem pyGet_ok_neg_len {α : Type} {l : List α} {i : Int} {x : α}
    (h : pyGet l i = .ok x) (h0 : i < 0) : 0 ≤ i + (l.length : Int) := by
  by_contra hc
  simp only [pyGet] at h
  rw [if_pos h0, if_pos (by omega)] at h
  exact absurd h (by simp)

theorem pyGet_at_append {α : Type} (pre : List α) (u : α) (rest : List α) :
    pyGet (pre ++ u :: rest) (pre.length : Int) = .ok u := by
  rw [pyGet_eq_getElem (pre ++ u :: rest) (pre.length : Int) pre.length (by
    rw [if_neg (by omega)])]
  rw [List.getElem?_append_right (Nat.le_refl _)]
  simp

theorem pyGet_at_append_succ {α : Type} (pre : List α) (u v : α) (rest : List α) :
    pyGet (pre ++ u :: v :: rest) ((pre.length : Int) + 1) = .ok v := by
  have h : pre ++ u :: v :: rest = (pre ++ [u]) ++ v :: rest := by simp
  have h2 : ((pre.length : Int) + 1) = (((pre ++ [u]).length : Nat) : Int) := by
    simp
  rw [h, h2]
  exact pyGet_at_append (pre ++ [u]) v rest

theorem pyGet_last1 {α : Type} (xs : List α) (x : α) :
    pyGet (xs ++ [x]) (-1) = .ok x := by
  rw [pyGet_eq_getElem (xs ++ [x]) (-1) xs.length (by
    rw [if_pos (by omega)]
    simp only [List.length_append, List.length_cons, List.length_nil]
    push_cast
    omega)]
  rw [List.getElem?_concat_length]

theorem pyGet_last2 {α : Type} (xs : List α) (x y : α) :
    pyGet (xs ++ [x, y]) (-2) = .ok x := by
  rw [pyGet_eq_getElem (xs ++ [x, y]) (-2) xs.length (by
    rw [if_pos (by omega)]
    simp only [List.length_append, List.length_cons, List.length_nil]
    push_cast
    omega)]
  rw [List.getElem?_append_right (Nat.le_refl _)]
  simp

theorem pyGet_last2' {α : Type} (xs : List α) (x y : α) :
    pyGet (xs ++ [x, y]) (-1) = .ok y := by
  have h : xs ++ [x, y] = (xs ++ [x]) ++ [y] := by simp
  rw [h]
  exact pyGet_last1 (xs ++ [x]) y

theorem pySliceAssign_exact {α : Type} (pre mid post repl : List α) (a b : Int)
    (ha : a = (pre.length : Int)) (hb : b = (pre.length : Int) + mid.length) :
    pySliceAssign (pre ++ mid ++ post) a b repl = pre ++ repl ++ post := by
  subst ha hb
  have hlen : (pre ++ mid ++ post).length = pre.length + mid.length + post.length := by
    simp [Nat.add_assoc]
  have hia : pySliceIdx (pre ++ mid ++ post).length (pre.length : Int) = pre.length := by
    have := pySliceIdx_eval (pre ++ mid ++ post).length (pre.length : Int)
    split_ifs at this <;> omega
  have hib : pySliceIdx (pre ++ mid ++ post).length ((pre.length : Int) + mid.length)
      = pre.length + mid.length := by
    have := pySliceIdx_eval (pre ++ mid ++ post).length ((pre.length : Int) + mid.length)
    split_ifs at this <;> omega
  simp only [pySliceAssign, hia, hib]
  rw [max_eq_right (by omega)]
  have htake : List.take pre.length (pre ++ mid ++ post) = pre := by
    rw [List.append_assoc]
    exact List.take_left' rfl
  have hdrop : List.drop (pre.length + mid.length) (pre ++ mid ++ post) = post :=
    List.drop_left' (by simp)
  rw [htake, hdrop]

theorem pySliceAssign_dropLast {α : Type} (xs tail : List α) (ht : 0 < tail.length) :
    pySliceAssign (xs ++ tail) (-(tail.length : Int)) ((xs ++ tail).length : Int) []
      = xs := by
  have hlen : (xs ++ tail).length = xs.length + tail.length := by simp
  have hia : pySliceIdx (xs ++ tail).length (-(tail.length : Int)) = xs.length := by
    have := pySliceIdx_eval (xs ++ tail).length (-(tail.length : Int))
    split_ifs at this <;> omega
  have hib : pySliceIdx (xs ++ tail).length ((xs ++ tail).length : Int)
      = xs.length + tail.length := by
    have := pySliceIdx_eval (xs ++ tail).length ((xs ++ tail).length : Int)
    split_ifs at this <;> omega
  simp only [pySliceAssign, hia, hib]
  rw [max_eq_right (by omega)]
  have htake : List.take xs.length (xs ++ tail) = xs := List.take_left' rfl
  have hdrop : List.drop (xs.length + tail.length) (xs ++ tail) = [] := by
    apply List.drop_eq_nil_of_le
    omega
  rw [htake, hdrop]
  simp

theorem length_pySliceAssign_nil_le {α : Type} (l : List α) (a b : Int) :
    (pySliceAssign l a b []).length ≤ l.length := by
  have h := length_pySliceAssign l a b []
  have ha := pySliceIdx_le l.length a
  have hb := pySliceIdx_le l.length b
  simp only [List.length_nil] at h
  omega

theorem pySetItem_ok_length {α : Type} {l : List α} {i : Int} {a : α} {l' : List α}
    (h : pySetItem l i a = .ok l') : l'.length = l.length := by
  simp only [pySetItem] at h
  split_ifs at h <;> cases h <;> simp [List.length_set]

theorem pyDelItem_ok_length_le {α : Type} {l : List α} {i : Int} {l' : List α}
    (h : pyDelItem l i = .ok l') : l'.length ≤ l.length := by
  simp only [pyDelItem] at h
  split_ifs at h <;> cases h <;> exact List.length_eraseIdx_le l _

/-! ### Helper lemmas about the optimizer state -/

theorem block_eq_nil_of_bi_ge (s : OptState) (h : s.blocks.length ≤ s.bi) :
    s.block = [] := by
  simp only [OptState.block, List.getD_eq_getElem?_getD]
  rw [List.getElem?_eq_none h]
  rfl

theorem block_setBlock (s : OptState) (b : List Instr) (h : s.bi < s.blocks.length) :
    (s.setBlock b).block = b := by
  simp only [OptState.setBlock, OptState.block, List.getD_eq_getElem?_getD,
    List.getElem?_set]
  simp [h]

theorem block_setBlock_ge (s : OptState) (b : List Instr)
    (h : s.blocks.length ≤ s.bi) : (s.setBlock b).block = s.block := by
  simp only [OptState.setBlock, OptState.block, List.set_eq_of_length_le h]

theorem length_block_setBlock_le (s : OptState) (b : List Instr)
    (hb : b.length ≤ s.block.length) : (s.setBlock b).block.length ≤ s.block.length := by
  by_cases h : s.bi < s.blocks.length
  · rw [block_setBlock s b h]
    exact hb
  · rw [block_setBlock_ge s b (by omega)]

theorem length_block_setBlock_le' (s : OptState) (b : List Instr) (L : Nat)
    (hs : s.block.length = L) (hb : b.length ≤ L) :
    (s.setBlock b).block.length ≤ L := by
  subst hs
  exact length_block_setBlock_le s b hb

theorem len_replace_load_const (nconst : Nat) (instr : Instr) (result : Value)
    (s : OptState) (h1 : (nconst : Int) + 1 ≤ s.index)
    (h2 : s.index ≤ (s.block.length : Int)) :
    (replace_load_const nconst instr result s).block.length ≤ s.block.length := by
  have hb : (replace_load_const nconst instr result s).block =
      (({ s with consts := s.consts ++ [result], in_consts := true } : OptState).setBlock
        (pySliceAssign s.block (s.index - nconst - 1) s.index
          [instr.replace .LOAD_CONST (.num s.consts.length)])).block := by
    simp only [replace_load_const]
    split_ifs <;> rfl
  rw [hb]
  have e1 := pySliceIdx_eval s.block.length (s.index - nconst - 1)
  have e2 := pySliceIdx_eval s.block.length s.index
  have e3 := length_pySliceAssign s.block (s.index - nconst - 1) s.index
    [instr.replace .LOAD_CONST (.num s.consts.length)]
  simp only [List.length_cons, List.length_nil] at e3
  exact length_block_setBlock_le' _ _ _ rfl (by split_ifs at e1 e2 <;> omega)

theorem len_unaryop (op : Value → Except PyErr Value) (instr : Instr)
    {s s' : OptState} (hstack : (s.const_stack.length : Int) < s.index)
    (hidx : s.index ≤ (s.block.length : Int))
    (h : unaryop op instr s = .ok s') : s'.block.length ≤ s.block.length := by
  simp only [unaryop] at h
  cases hg : pyGet s.const_stack (-1) with
  | error e =>
      simp only [hg] at h
      cases h
      exact le_refl _
  | ok v =>
      simp only [hg] at h
      cases hop : op v with
      | error e =>
          cases e <;> simp only [hop] at h <;> cases h <;> exact le_refl _
      | ok result =>
          simp only [hop] at h
          split_ifs at h with hc
          · cases h
            apply len_replace_load_const
            · have := pyGet_ok_neg_len hg (by omega)
              omega
            · exact hidx
          · cases h
            exact le_refl _

theorem len_binop (op : Value → Value → Except PyErr Value) (instr : Instr)
    {s s' : OptState} (hstack : (s.const_stack.length : Int) < s.index)
    (hidx : s.index ≤ (s.block.length : Int))
    (h : binop op instr s = .ok s') : s'.block.length ≤ s.block.length := by
  simp only [binop] at h
  cases hg2 : pyGet s.const_stack (-2) with
  | error e =>
      simp only [hg2] at h
      cases h
      exact le_refl _
  | ok l =>
      simp only [hg2] at h
      cases hg1 : pyGet s.const_stack (-1) with
      | error e =>
          simp only [hg1] at h
          cases h
          exact le_refl _
      | ok r =>
          simp only [hg1] at h
          cases hop : op l r with
          | error e =>
              simp only [hop] at h
              cases h
              exact le_refl _
          | ok result =>
              simp only [hop] at h
              split_ifs at h with hc
              · cases h
                apply len_replace_load_const
                · have := pyGet_ok_neg_len hg2 (by omega)
                  omega
                · exact hidx
              · cases h
                exact le_refl _

theorem len_eval_UNARY_NOT (instr : Instr) {s s' : OptState}
    (h1 : 1 ≤ s.index) (h2 : s.index ≤ (s.block.length : Int))
    (h : eval_UNARY_NOT instr s = .ok s') : s'.block.length ≤ s.block.length := by
  simp only [eval_UNARY_NOT] at h
  cases hg : pyGet s.block s.index with
  | error e =>
      simp only [hg] at h
      cases h
  | ok next =>
      simp only [hg] at h
      split_ifs at h with hn
      · cases h
        have hlt : s.index < (s.block.length : Int) := pyGet_ok_nonneg_lt hg (by omega)
        have e1 := pySliceIdx_eval s.block.length (s.index - 1)
        have e2 := pySliceIdx_eval s.block.length (s.index + 1)
        have e3 := length_pySliceAssign s.block (s.index - 1) (s.index + 1)
          [instr.replace .POP_JUMP_IF_TRUE next.arg]
        simp only [List.length_cons, List.length_nil] at e3
        exact length_block_setBlock_le _ _ (by split_ifs at e1 e2 <;> omega)
      · cases h
        exact le_refl _

theorem len_eval_RETURN_VALUE (instr : Instr) {s s' : OptState}
    (h : eval_RETURN_VALUE instr s = .ok s') : s'.block.length ≤ s.block.length := by
  simp only [eval_RETURN_VALUE] at h
  split_ifs at h with hn
  · cases h
    exact le_refl _
  · cases hg : pyGet s.block (s.index + 1) with
    | error e =>
        simp only [hg] at h
        cases h
    | ok instr3 =>
        simp only [hg] at h
        split_ifs at h with h3
        · cases h
          exact length_block_setBlock_le _ _ (length_pySliceAssign_nil_le _ _ _)
        · cases hg2 : pyGet s.block s.index with
          | error e =>
              simp only [hg2] at h
              cases h
          | ok next =>
              simp only [hg2] at h
              split_ifs at h with hj
              · cases hd : pyDelItem s.block s.index with
                | error e =>
                    simp only [hd] at h
                    cases h
                | ok b =>
                    simp only [hd] at h
                    cases h
                    exact length_block_setBlock_le _ _ (pyDelItem_ok_length_le hd)
              · cases h
                exact le_refl _

theorem len_eval_COMPARE_OP (instr : Instr) {s s' : OptState}
    (h1 : 1 ≤ s.index) (h2 : s.index ≤ (s.block.length : Int))
    (h : eval_COMPARE_OP instr s = .ok s') : s'.block.length ≤ s.block.length := by
  simp only [eval_COMPARE_OP] at h
  cases ha : instr.arg <;> simp only [ha] at h <;> try (cases h; exact le_refl _)
  rename_i a
  cases hnp : NOT_PyCmp a with
  | none =>
      simp only [hnp] at h
      cases h
      exact le_refl _
  | some new_arg =>
      simp only [hnp] at h
      cases hg : pyGet s.block s.index with
      | error e =>
          simp only [hg] at h
          cases h
          exact le_refl _
      | ok next =>
          simp only [hg] at h
          split_ifs at h with hn
          · cases h
            exact le_refl _
          · cases h
            have hlt : s.index < (s.block.length : Int) := pyGet_ok_nonneg_lt hg (by omega)
            have e1 := pySliceIdx_eval s.block.length (s.index - 1)
            have e2 := pySliceIdx_eval s.block.length (s.index + 1)
            have e3 := length_pySliceAssign s.block (s.index - 1) (s.index + 1)
              [instr.replace_arg (.num new_arg)]
            simp only [List.length_cons, List.length_nil] at e3
            exact length_block_setBlock_le' _ _ _ rfl (by split_ifs at e1 e2 <;> omega)

theorem len_pySliceAssign_window {α : Type} (l : List α) (i : Int) (repl : List α)
    (h1 : 1 ≤ i) (hlt : i < (l.length : Int)) (hr : repl.length ≤ 2) :
    (pySliceAssign l (i - 1) (i + 1) repl).length ≤ l.length := by
  have e1 := pySliceIdx_eval l.length (i - 1)
  have e2 := pySliceIdx_eval l.length (i + 1)
  have e3 := length_pySliceAssign l (i - 1) (i + 1) repl
  split_ifs at e1 e2 <;> omega

theorem len_build_tuple_unpack_seq (instr : Instr) {s s' : OptState}
    (h1 : 1 ≤ s.index) (h2 : s.index ≤ (s.block.length : Int))
    (h : build_tuple_unpack_seq instr s = .ok s') : s'.block.length ≤ s.block.length := by
  simp only [build_tuple_unpack_seq] at h
  cases ha : instr.arg with
  | noArg => simp only [ha] at h; cases h
  | lbl b => simp only [ha] at h; cases h
  | newLbl k => simp only [ha] at h; cases h
  | num n =>
    simp only [ha] at h
    by_cases harity : 1 ≤ n ∧ n ≤ 3
    · rw [if_neg (not_not_intro harity)] at h
      cases hg : pyGet s.block s.index with
      | error e =>
          simp only [hg] at h
          cases h
      | ok next =>
          simp only [hg] at h
          have hlt : s.index < (s.block.length : Int) := pyGet_ok_nonneg_lt hg (by omega)
          by_cases hm : next.name = .UNPACK_SEQUENCE ∧ next.arg = Arg.num n
          · rw [if_neg (not_not_intro hm)] at h
            by_cases hn1 : n = 1
            · rw [if_pos hn1] at h
              cases h
              exact length_block_setBlock_le' _ _ _ rfl
                (len_pySliceAssign_window _ _ _ (by omega) (by omega) (by simp))
            · rw [if_neg hn1] at h
              by_cases hn2 : n = 2
              · rw [if_pos hn2] at h
                cases h
                exact length_block_setBlock_le' _ _ _ rfl
                  (len_pySliceAssign_window _ _ _ (by omega) (by omega) (by simp))
              · rw [if_neg hn2] at h
                cases h
                exact length_block_setBlock_le' _ _ _ rfl
                  (len_pySliceAssign_window _ _ _ (by omega) (by omega) (by simp))
          · rw [if_pos hm] at h
            cases h
            exact le_refl _
    · rw [if_pos harity] at h
      cases h
      exact le_refl _

theorem len_replace_container (instr : Instr) (ct : List Value → Value)
    {s s' : OptState} (n : Nat) (ha : instr.arg = .num n)
    (hn1 : (n : Int) + 1 ≤ s.index) (h2 : s.index ≤ (s.block.length : Int))
    (h : replace_container_of_consts instr ct s = .ok s') :
    s'.block.length ≤ s.block.length := by
  simp only [replace_container_of_consts, ha] at h
  cases h
  exact len_replace_load_const n instr _ s hn1 h2

theorem len_build_tuple (instr : Instr) (ct : List Value → Value)
    {s : OptState} {r : Bool × OptState}
    (hstack : (s.const_stack.length : Int) < s.index)
    (h2 : s.index ≤ (s.block.length : Int))
    (h : build_tuple instr ct s = .ok r) : r.2.block.length ≤ s.block.length := by
  simp only [build_tuple] at h
  cases ha : instr.arg with
  | noArg => simp only [ha] at h; cases h
  | lbl b => simp only [ha] at h; cases h
  | newLbl k => simp only [ha] at h; cases h
  | num n =>
    simp only [ha] at h
    by_cases hgt : n > s.const_stack.length
    · rw [if_pos hgt] at h
      cases h
      exact le_refl _
    · rw [if_neg hgt] at h
      cases hg : pyGet s.block s.index with
      | error e =>
          simp only [hg] at h
          cases h
      | ok next =>
          simp only [hg] at h
          by_cases hc1 : next.name = OpName.COMPARE_OP
          · rw [if_neg (by simpa using hc1)] at h
            by_cases hc2 : next.arg = Arg.num PyCmp_IN ∨ next.arg = Arg.num PyCmp_NOT_IN
            · rw [if_neg (not_not_intro hc2)] at h
              cases hrc : replace_container_of_consts instr ct s with
              | error e =>
                  simp only [hrc] at h
                  cases h
              | ok s1 =>
                  simp only [hrc] at h
                  cases h
                  exact len_replace_container instr ct n ha (by omega) h2 hrc
            · rw [if_pos hc2] at h
              cases h
              exact le_refl _
          · rw [if_pos (by simpa using hc1)] at h
            cases h
            exact le_refl _

theorem build_tuple_false (instr : Instr) (ct : List Value → Value)
    {s s1 : OptState} (h : build_tuple instr ct s = .ok (false, s1)) : s1 = s := by
  simp only [build_tuple] at h
  cases ha : instr.arg with
  | noArg => simp only [ha] at h; cases h
  | lbl b => simp only [ha] at h; cases h
  | newLbl k => simp only [ha] at h; cases h
  | num n =>
    simp only [ha] at h
    by_cases hgt : n > s.const_stack.length
    · rw [if_pos hgt] at h
      cases h
      rfl
    · rw [if_neg hgt] at h
      cases hg : pyGet s.block s.index with
      | error e =>
          simp only [hg] at h
          cases h
      | ok next =>
          simp only [hg] at h
          by_cases hc1 : next.name = OpName.COMPARE_OP
          · rw [if_neg (by simpa using hc1)] at h
            by_cases hc2 : next.arg = Arg.num PyCmp_IN ∨ next.arg = Arg.num PyCmp_NOT_IN
            · rw [if_neg (not_not_intro hc2)] at h
              cases hrc : replace_container_of_consts instr ct s with
              | error e =>
                  simp only [hrc] at h
                  cases h
              | ok s2 =>
                  simp only [hrc] at h
                  simp at h
            · rw [if_pos hc2] at h
              cases h
              rfl
          · rw [if_pos (by simpa using hc1)] at h
            cases h
            rfl

theorem len_eval_BUILD_TUPLE (instr : Instr) {s s' : OptState}
    (hstack : (s.const_stack.length : Int) < s.index)
    (h2 : s.index ≤ (s.block.length : Int))
    (h : eval_BUILD_TUPLE instr s = .ok s') : s'.block.length ≤ s.block.length := by
  simp only [eval_BUILD_TUPLE] at h
  cases ha : instr.arg with
  | noArg =>
      simp only [ha] at h
      cases h
      exact le_refl _
  | lbl b => simp only [ha] at h; cases h
  | newLbl k => simp only [ha] at h; cases h
  | num n =>
    simp only [ha] at h
    by_cases hz : n = 0
    · rw [if_pos hz] at h
      cases h
      exact le_refl _
    · rw [if_neg hz] at h
      by_cases hle : n ≤ s.const_stack.length
      · rw [if_pos hle] at h
        exact len_replace_container instr Value.tuple n ha (by omega) h2 h
      · rw [if_neg hle] at h
        exact len_build_tuple_unpack_seq instr (by omega) h2 h

theorem len_eval_BUILD_LIST (instr : Instr) {s s' : OptState}
    (hstack : (s.const_stack.length : Int) < s.index)
    (h2 : s.index ≤ (s.block.length : Int))
    (h : eval_BUILD_LIST instr s = .ok s') : s'.block.length ≤ s.block.length := by
  simp only [eval_BUILD_LIST] at h
  cases ha : instr.arg with
  | noArg =>
      simp only [ha] at h
      cases h
      exact le_refl _
  | lbl b => simp only [ha] at h; cases h
  | newLbl k => simp only [ha] at h; cases h
  | num n =>
    simp only [ha] at h
    by_cases hz : n = 0
    · rw [if_pos hz] at h
      cases h
      exact le_refl _
    · rw [if_neg hz] at h
      cases hbt : build_tuple instr Value.tuple s with
      | error e =>
          simp only [hbt] at h
          cases h
      | ok r =>
          simp only [hbt] at h
          rcases r with ⟨folded, s1⟩
          cases folded with
          | false =>
              have hs1 : s1 = s := build_tuple_false instr Value.tuple hbt
              subst hs1
              simp only [Bool.not_false, if_pos] at h
              exact len_build_tuple_unpack_seq instr (by omega) h2 h
          | true =>
              simp only [Bool.not_true] at h
              rw [if_neg (by simp)] at h
              cases h
              exact len_build_tuple instr Value.tuple hstack h2 hbt

theorem len_eval_BUILD_SET (instr : Instr) {s s' : OptState}
    (hstack : (s.const_stack.length : Int) < s.index)
    (h2 : s.index ≤ (s.block.length : Int))
    (h : eval_BUILD_SET instr s = .ok s') : s'.block.length ≤ s.block.length := by
  simp only [eval_BUILD_SET] at h
  cases ha : instr.arg with
  | noArg =>
      simp only [ha] at h
      cases h
      exact le_refl _
  | lbl b => simp only [ha] at h; cases h
  | newLbl k => simp only [ha] at h; cases h
  | num n =>
    simp only [ha] at h
    by_cases hz : n = 0
    · rw [if_pos hz] at h
      cases h
      exact le_refl _
    · rw [if_neg hz] at h
      cases hbt : build_tuple instr Value.frozen s with
      | error e =>
          simp only [hbt] at h
          cases h
      | ok r =>
          simp only [hbt] at h
          cases h
          exact len_build_tuple instr Value.frozen hstack h2 hbt

theorem len_eval_LOAD_CONST (instr : Instr) {s s' : OptState}
    (h : eval_LOAD_CONST instr s = .ok s') : s'.block.length ≤ s.block.length := by
  simp only [eval_LOAD_CONST] at h
  cases ha : instr.arg with
  | noArg => simp only [ha] at h; cases h
  | lbl b => simp only [ha] at h; cases h
  | newLbl k => simp only [ha] at h; cases h
  | num n =>
    simp only [ha] at h
    cases hc : s.consts.get? n with
    | none => simp only [hc] at h; cases h
    | some v =>
        simp only [hc] at h
        cases h
        exact le_refl _

theorem len_optimize_jump_to_cond_jump (instr : Instr) {s s' : OptState}
    (h : optimize_jump_to_cond_jump instr s = .ok s') :
    s'.block.length ≤ s.block.length := by
  simp only [optimize_jump_to_cond_jump] at h
  cases ha : instr.arg with
  | noArg => simp only [ha] at h; cases h
  | num n => simp only [ha] at h; cases h
  | newLbl k =>
      simp only [ha, resolveLabel] at h
      cases h
  | lbl b =>
    simp only [ha] at h
    cases hr : resolveLabel s (.lbl b) with
    | error e => simp only [hr] at h; cases h
    | ok tb =>
        simp only [hr] at h
        cases hg : pyGet tb 0 with
        | error e => simp only [hg] at h; cases h
        | ok ti =>
            simp only [hg] at h
            by_cases hb1 : (instr.name = OpName.JUMP_FORWARD
                ∨ instr.name = OpName.JUMP_ABSOLUTE) ∧ ti.name = OpName.RETURN_VALUE
            · rw [if_pos hb1] at h
              cases hset : pySetItem s.block (s.index - 1) ti with
              | error e => simp only [hset] at h; cases h
              | ok bset =>
                  simp only [hset] at h
                  cases h
                  exact length_block_setBlock_le' _ _ _ rfl
                    (le_of_eq (pySetItem_ok_length hset))
            · rw [if_neg hb1] at h
              by_cases hb2 : ti.name = OpName.JUMP_FORWARD ∨ ti.name = OpName.JUMP_ABSOLUTE
              · rw [if_pos hb2] at h
                cases hset : pySetItem s.block (s.index - 1)
                    (instr.replace
                      (if instr.name = OpName.JUMP_FORWARD then OpName.JUMP_ABSOLUTE
                       else instr.name) ti.arg) with
                | error e => simp only [hset] at h; cases h
                | ok bset =>
                    simp only [hset] at h
                    cases h
                    exact length_block_setBlock_le' _ _ _ rfl
                      (le_of_eq (pySetItem_ok_length hset))
              · rw [if_neg hb2] at h
                cases h
                exact le_refl _

theorem len_jump_if_or_pop (instr : Instr) {s s' : OptState}
    (h : jump_if_or_pop instr s = .ok s') : s'.block.length ≤ s.block.length := by
  simp only [jump_if_or_pop] at h
  cases hr : resolveLabel s instr.arg with
  | error e => simp only [hr] at h; cases h
  | ok tb =>
      simp only [hr] at h
      cases hg : pyGet tb 0 with
      | error e => simp only [hg] at h; cases h
      | ok ti =>
          simp only [hg] at h
          by_cases hcj : ti.is_cond_jump = true
          · rw [if_neg (by simpa using hcj)] at h
            by_cases hpol : JUMPS_ON_TRUE ti.name = JUMPS_ON_TRUE instr.name
            · rw [if_pos hpol] at h
              cases hset : pySetItem s.block (s.index - 1) (instr.replace ti.name ti.arg) with
              | error e => simp only [hset] at h; cases h
              | ok bset =>
                  simp only [hset] at h
                  cases h
                  exact length_block_setBlock_le' _ _ _ rfl
                    (le_of_eq (pySetItem_ok_length hset))
            · rw [if_neg hpol] at h
              simp only [create_label] at h
              have hbl : ({ s with labelCtr := s.labelCtr + 1 } : OptState).block
                  = s.block := rfl
              have hix : ({ s with labelCtr := s.labelCtr + 1 } : OptState).index
                  = s.index := rfl
              rw [hbl, hix] at h
              cases hset : pySetItem s.block (s.index - 1)
                  (instr.replace
                    (if JUMPS_ON_TRUE instr.name then OpName.POP_JUMP_IF_TRUE
                     else OpName.POP_JUMP_IF_FALSE) (.newLbl s.labelCtr)) with
              | error e => simp only [hset] at h; cases h
              | ok bset =>
                  simp only [hset] at h
                  cases h
                  exact length_block_setBlock_le' _ _ _ rfl
                    (le_of_eq (pySetItem_ok_length hset))
          · rw [if_pos (by simpa using hcj)] at h
            exact len_optimize_jump_to_cond_jump instr h

theorem pySliceAssign_dropLast' {α : Type} (xs tail : List α) (a b : Int)
    (ha : a = -(tail.length : Int)) (hb : b = ((xs ++ tail).length : Int))
    (ht : 0 < tail.length) :
    pySliceAssign (xs ++ tail) a b [] = xs := by
  subst ha hb
  exact pySliceAssign_dropLast xs tail ht

/-! ### The claims -/

/-- C1: the optimizer does not preserve behaviour on every accepted program:
with the shipped configuration (`MIMICK_C_IMPL = False`) every program is
accepted, and on a program whose first block ends in `UNARY_NOT` the
`eval_UNARY_NOT` lookahead raises an uncaught `IndexError`, so `optimize`
produces no output program at all instead of an equivalent one. -/
theorem spec_C1_optimize_crashes :
    optimize MIMICK_C_IMPL 30 c1prog = .error .indexError := rfl

/-- C3 counterexample: a fold attempt where the host operation raises a
non-`IndexError` (negating the string constant `"a"` raises `TypeError`):
the exception escapes `unaryop`, contradicting "the handler returns
normally (no exception escapes it)". -/
theorem spec_C3_counterexample :
    eval_UNARY_NEGATIVE iNEG c3state = .error .typeError := rfl

/-- C4: handlers do crash on out-of-range lookahead: when the trigger
instruction is the last of its block, `eval_UNARY_NOT` and
`build_tuple_unpack_seq` read `self.block[self.index]` unguarded and raise
`IndexError` (unlike `eval_COMPARE_OP`, which catches it). -/
theorem spec_C4_lookahead_crash :
    eval_UNARY_NOT iNOT c4state = .error .indexError
    ∧ build_tuple_unpack_seq (iBT 2) c4state2 = .error .indexError := ⟨rfl, rfl⟩

/-- C2 counterexample: with the shipped `MIMICK_C_IMPL = False`, a program
whose encoded stream does not end in the `RETURN_VALUE` opcode (last byte
0 ≠ 83) is *not* returned unchanged: its constant fold runs and the
blocks change. -/
theorem spec_C2_counterexample :
    optimize MIMICK_C_IMPL 30 c2in = .ok c2out
    ∧ c2out.blocks ≠ c2in.blocks
    ∧ pyGet c2in.co_code ((c2in.co_code.length : Int) - 1) = .ok 0 :=
  ⟨rfl, by decide, rfl⟩

/-- C6 counterexample: a run of `_optimize` in which a handler *grows* its
block: block 0 ends in `LOAD_CONST`, its tracked constants leak into
block 1, and the leading `BINARY_ADD`'s fold computes splice start
`index - 3 = -2`, which Python resolves to an empty slice at position 3 —
an insertion.  Block 1 has 5 instructions before and 6 after. -/
theorem spec_C6_counterexample :
    (pyOptimize 40 c6blocks c6consts).map (fun s => (s.blocks.getD 1 []).length)
      = .ok 6
    ∧ (c6blocks.getD 1 []).length = 5 := ⟨rfl, rfl⟩

/-- C7 counterexample: the `UNARY_NOT`/`POP_JUMP_IF_FALSE` fusion *is*
applied although the negation's operand is a tracked constant (the
`LOAD_CONST 0` immediately before pushes it): the handler never consults
the constant stack. -/
theorem spec_C7_counterexample :
    eval_UNARY_NOT iNOT c7state = .ok c7out
    ∧ c7state.const_stack = [.int 1]
    ∧ (pyOptimize 30 c7blocks c7consts).map (fun s => s.blocks)
      = .ok [[iLC 0, iPJIT 1], [iRET]] := ⟨rfl, rfl, rfl⟩

/-- C8 counterexample: `eval_RETURN_VALUE` requires *two* instructions after
the cursor, so a `RETURN_VALUE` immediately followed by a `JUMP_FORWARD`
that is the last instruction of the block is left as-is (the claim says
the jump is deleted), and an immediately adjacent `RETURN_VALUE;
RETURN_VALUE` pair is also left as-is (the handler's pattern is
`RETURN_VALUE; x; RETURN_VALUE`, testing `block[index+1]`). -/
theorem spec_C8_counterexample :
    eval_RETURN_VALUE iRET c8state = .ok c8state
    ∧ c8state.block = [iRET, iJF 1]
    ∧ eval_RETURN_VALUE iRET c8state2 = .ok c8state2
    ∧ c8state2.block = [iRET, iRET, iNOP] := ⟨rfl, rfl, rfl, rfl⟩

/-- C9 counterexample: `BUILD_TUPLE 1` immediately followed by
`UNPACK_SEQUENCE 1` with matching arity is *not* rewritten by the
unpack rule when the build's operand is a tracked constant: the
constant-fold path wins, the tuple is folded into a new constant and the
`UNPACK_SEQUENCE` survives. -/
theorem spec_C9_counterexample :
    (pyOptimize 30 c9blocks c9consts).map (fun s => (s.blocks, s.consts.length))
      = .ok ([[iLC 1, iUNP 1, iRET]], 2) := rfl

/-- C10 counterexample: the constant stack is *not* rebuilt per block:
block 0 ends in `LOAD_CONST`, so `in_consts` carries over and block 1's
`BINARY_ADD` folds the two constants tracked in block 0 (the constants
table grows to 3 and block 1 is rewritten — here even to empty, the new
`LOAD_CONST`/`RETURN_VALUE` pair being eaten by the return rule on
re-scan). -/
theorem spec_C10_counterexample :
    (pyOptimize 30 c10blocks c10consts).map (fun s => (s.blocks, s.consts.length))
      = .ok ([[iLC 0, iLC 1], []], 3) := rfl

/-- C2 (amended): the bypass checks run only when `MIMICK_C_IMPL` is true.
In that mode, a program whose line table contains the 255 gap marker, or
whose encoded size exceeds 32700, or whose last encoded byte is not the
`RETURN_VALUE` opcode, is returned unchanged with no rewrite at all. -/
theorem spec_C2_guard_when_mimick (fuel : Nat) (co : CodeObj)
    (h : 255 ∈ co.co_lnotab ∨ 32700 < co.co_code.length
        ∨ ∃ b, pyGet co.co_code ((co.co_code.length : Int) - 1) = .ok b
            ∧ b ≠ RETURN_VALUE_OPCODE) :
    optimize true fuel co = .ok co := by
  simp only [optimize, check_bypass_optim]
  by_cases h1 : 255 ∈ co.co_lnotab
  · rw [if_neg (by simp), if_pos h1]
  · rw [if_neg (by simp), if_neg h1]
    by_cases h2 : 32700 < co.co_code.length
    · rw [if_pos h2]
    · rw [if_neg h2]
      rcases h with h | h | ⟨b, hb, hbne⟩
      · exact absurd h h1
      · exact absurd h h2
      · simp only [hb]
        rw [if_pos hbne]

/-- C2 witness data and instantiation. -/
theorem spec_C2_guard_when_mimick_witness : optimize true 5 c2w = .ok c2w :=
  spec_C2_guard_when_mimick 5 c2w (Or.inr (Or.inr ⟨0, rfl, by decide⟩))

/-- C3 (amended): error handling differs between the two fold kinds.  For a
*binary* fold, any error from the host operation is caught and the handler
returns with the state exactly as before.  For a *unary* fold, only a
missing operand (`IndexError` from reading the stack) is caught — if the
host operation itself raises anything other than `IndexError`, the
exception escapes the handler. -/
theorem spec_C3_fold_error_policy :
    (∀ (op : Value → Value → Except PyErr Value) (instr : Instr) (s : OptState)
        (l r : Value) (e : PyErr),
        pyGet s.const_stack (-2) = .ok l → pyGet s.const_stack (-1) = .ok r →
        op l r = .error e → binop op instr s = .ok s)
    ∧ (∀ (op : Value → Except PyErr Value) (instr : Instr) (s : OptState)
        (v : Value) (e : PyErr),
        pyGet s.const_stack (-1) = .ok v → op v = .error e → e ≠ .indexError →
        unaryop op instr s = .error e)
    ∧ (∀ (op : Value → Except PyErr Value) (instr : Instr) (s : OptState) (e : PyErr),
        pyGet s.const_stack (-1) = .error e → unaryop op instr s = .ok s) := by
  refine ⟨?_, ?_, ?_⟩
  · intro op instr s l r e h2 h1 hop
    simp only [binop, h2, h1, hop]
  · intro op instr s v e h1 hop hne
    cases e with
    | indexError => exact absurd rfl hne
    | typeError => simp [unaryop, h1, hop]
    | zeroDivisionError => simp [unaryop, h1, hop]
    | valueError => simp [unaryop, h1, hop]
    | keyError => simp [unaryop, h1, hop]
    | assertionError => simp [unaryop, h1, hop]
    | nonTermination => simp [unaryop, h1, hop]
  · intro op instr s e h1
    simp only [unaryop, h1]

/-- C3 witness: the spec's division-by-zero scenario is abandoned with the
state untouched by the binary handler, while a `TypeError` from negating a
string escapes the unary handler. -/
theorem spec_C3_fold_error_policy_witness :
    binop py_truediv (⟨1, .BINARY_TRUE_DIVIDE, .noArg⟩ : Instr) c3divstate
      = .ok c3divstate
    ∧ unaryop py_neg iNEG c3state = .error .typeError :=
  ⟨spec_C3_fold_error_policy.1 py_truediv _ c3divstate (.int 2) (.int 0)
      .zeroDivisionError rfl rfl rfl,
   spec_C3_fold_error_policy.2.1 py_neg iNEG c3state (.str "a") .typeError
      rfl rfl (by decide)⟩

/-- C5: for every binary fold handler (all thirteen are `binop` at their
host operation), reached with at least two tracked constants, when the host
operation succeeds and the result passes the size guard, the two
`LOAD_CONST` instructions and the binary instruction are replaced by a
single `LOAD_CONST` of the computed constant, which is appended to the
constants table; the tracked stack drops the two operands and gains the
result. -/
theorem spec_C5_binary_fold (op : Value → Value → Except PyErr Value)
    (instr i1 i2 : Instr) (s : OptState) (pre post : List Instr)
    (rest : List Value) (l r result : Value)
    (hload1 : i1.name = .LOAD_CONST) (hload2 : i2.name = .LOAD_CONST)
    (hblock : s.block = pre ++ [i1, i2, instr] ++ post)
    (hidx : s.index = (pre.length : Int) + 3)
    (hstack : s.const_stack = rest ++ [l, r])
    (hop : op l r = .ok result)
    (hchk : check_result result = true) :
    binop op instr s = .ok
      { blocks := s.blocks.set s.bi
          (pre ++ [instr.replace .LOAD_CONST (.num s.consts.length)] ++ post),
        consts := s.consts ++ [result],
        const_stack := rest ++ [result],
        bi := s.bi, index := s.index - 2, in_consts := true,
        labelCtr := s.labelCtr } := by
  have hg2 : pyGet s.const_stack (-2) = .ok l := by
    rw [hstack]
    exact pyGet_last2 rest l r
  have hg1 : pyGet s.const_stack (-1) = .ok r := by
    rw [hstack]
    exact pyGet_last2' rest l r
  simp only [binop, hg2, hg1, hop]
  rw [if_neg (by simp [hchk])]
  simp only [replace_load_const, OptState.setBlock, OptState.block]
  rw [if_pos (by decide : (2 : Nat) ≠ 0)]
  have hbl : s.blocks.getD s.bi [] = pre ++ [i1, i2, instr] ++ post := hblock
  rw [hbl, hstack]
  rw [pySliceAssign_exact pre [i1, i2, instr] post
      [instr.replace .LOAD_CONST (.num s.consts.length)]
      (s.index - ((2 : Nat) : Int) - 1) s.index
      (by rw [hidx]; push_cast; ring)
      (by rw [hidx]; simp only [List.length_cons, List.length_nil]; push_cast; ring)]
  rw [pySliceAssign_dropLast' rest [l, r] _ _
      (by simp) (by simp) (by simp)]
  rfl

/-- C5 witness: `push(2); push(3); add` at a concrete state becomes
`push(5)` with `5` appended to the constants table. -/
theorem spec_C5_binary_fold_witness : binop py_add iADD c5state = .ok c5out :=
  spec_C5_binary_fold py_add iADD (iLC 0) (iLC 1) c5state [] [iRET] []
    (.int 2) (.int 3) (.int 5) rfl rfl rfl rfl rfl rfl rfl

/-- C6 (amended): every handler invocation in which the cursor exceeds the
tracked-constant-stack depth — which holds whenever the tracked constants
all come from the current block, i.e. in the absence of a cross-block leak
— leaves the number of instructions in the block less than or equal to
what it was (the leak case can grow the block, see the counterexample). -/
theorem spec_C6_handler_nongrowth (instr : Instr) {s s' : OptState}
    (hstack : (s.const_stack.length : Int) < s.index)
    (hidx : s.index ≤ (s.block.length : Int))
    (h : dispatch instr s = .ok s') :
    s'.block.length ≤ s.block.length := by
  have h1 : (1 : Int) ≤ s.index := by omega
  cases hn : instr.name <;> simp only [dispatch, hn] at h
  case LOAD_CONST => exact len_eval_LOAD_CONST instr h
  case UNARY_POSITIVE =>
    simp only [eval_UNARY_POSITIVE] at h
    exact len_unaryop _ instr hstack hidx h
  case UNARY_NEGATIVE =>
    simp only [eval_UNARY_NEGATIVE] at h
    exact len_unaryop _ instr hstack hidx h
  case UNARY_INVERT =>
    simp only [eval_UNARY_INVERT] at h
    exact len_unaryop _ instr hstack hidx h
  case UNARY_NOT => exact len_eval_UNARY_NOT instr h1 hidx h
  case RETURN_VALUE => exact len_eval_RETURN_VALUE instr h
  case BINARY_ADD =>
    simp only [eval_BINARY_ADD] at h
    exact len_binop _ instr hstack hidx h
  case BINARY_SUBTRACT =>
    simp only [eval_BINARY_SUBTRACT] at h
    exact len_binop _ instr hstack hidx h
  case BINARY_MULTIPLY =>
    simp only [eval_BINARY_MULTIPLY] at h
    exact len_binop _ instr hstack hidx h
  case BINARY_TRUE_DIVIDE =>
    simp only [eval_BINARY_TRUE_DIVIDE] at h
    exact len_binop _ instr hstack hidx h
  case BINARY_FLOOR_DIVIDE =>
    simp only [eval_BINARY_FLOOR_DIVIDE] at h
    exact len_binop _ instr hstack hidx h
  case BINARY_MODULO =>
    simp only [eval_BINARY_MODULO] at h
    exact len_binop _ instr hstack hidx h
  case BINARY_POWER =>
    simp only [eval_BINARY_POWER] at h
    exact len_binop _ instr hstack hidx h
  case BINARY_LSHIFT =>
    simp only [eval_BINARY_LSHIFT] at h
    exact len_binop _ instr hstack hidx h
  case BINARY_RSHIFT =>
    simp only [eval_BINARY_RSHIFT] at h
    exact len_binop _ instr hstack hidx h
  case BINARY_AND =>
    simp only [eval_BINARY_AND] at h
    exact len_binop _ instr hstack hidx h
  case BINARY_OR =>
    simp only [eval_BINARY_OR] at h
    exact len_binop _ instr hstack hidx h
  case BINARY_XOR =>
    simp only [eval_BINARY_XOR] at h
    exact len_binop _ instr hstack hidx h
  case BINARY_SUBSCR =>
    simp only [eval_BINARY_SUBSCR] at h
    exact len_binop _ instr hstack hidx h
  case BUILD_TUPLE => exact len_eval_BUILD_TUPLE instr hstack hidx h
  case BUILD_LIST => exact len_eval_BUILD_LIST instr hstack hidx h
  case BUILD_SET => exact len_eval_BUILD_SET instr hstack hidx h
  case COMPARE_OP => exact len_eval_COMPARE_OP instr h1 hidx h
  case UNPACK_SEQUENCE =>
    simp only [Instr.is_jump, Instr.is_cond_jump, hn] at h
    cases h
    exact le_refl _
  case ROT_TWO =>
    simp only [Instr.is_jump, Instr.is_cond_jump, hn] at h
    cases h
    exact le_refl _
  case ROT_THREE =>
    simp only [Instr.is_jump, Instr.is_cond_jump, hn] at h
    cases h
    exact le_refl _
  case NOP =>
    simp only [Instr.is_jump, Instr.is_cond_jump, hn] at h
    cases h
    exact le_refl _
  case POP_JUMP_IF_FALSE =>
    simp only [Instr.is_jump, Instr.is_cond_jump, hn, if_true] at h
    exact len_optimize_jump_to_cond_jump instr h
  case POP_JUMP_IF_TRUE =>
    simp only [Instr.is_jump, Instr.is_cond_jump, hn, if_true] at h
    exact len_optimize_jump_to_cond_jump instr h
  case JUMP_IF_FALSE_OR_POP =>
    simp only [eval_JUMP_IF_FALSE_OR_POP] at h
    exact len_jump_if_or_pop instr h
  case JUMP_IF_TRUE_OR_POP =>
    simp only [eval_JUMP_IF_TRUE_OR_POP] at h
    exact len_jump_if_or_pop instr h
  case JUMP_ABSOLUTE =>
    simp only [Instr.is_jump, Instr.is_cond_jump, hn, if_true] at h
    exact len_optimize_jump_to_cond_jump instr h
  case JUMP_FORWARD =>
    simp only [Instr.is_jump, Instr.is_cond_jump, hn, if_true] at h
    exact len_optimize_jump_to_cond_jump instr h
  case other n =>
    simp only [Instr.is_jump, Instr.is_cond_jump, hn] at h
    cases h
    exact le_refl _

/-- C6 witness: a correctly placed binary fold shrinks its block from 4 to
2 instructions. -/
theorem spec_C6_handler_nongrowth_witness :
    dispatch iADD c6wstate = .ok c6wOut ∧ c6wOut.block.length ≤ c6wstate.block.length :=
  ⟨rfl, spec_C6_handler_nongrowth iADD (by decide) (by decide) rfl⟩

theorem pyDelItem_at_append {α : Type} (pre : List α) (u : α) (rest : List α) :
    pyDelItem (pre ++ u :: rest) (pre.length : Int) = .ok (pre ++ rest) := by
  have hlen : (pre ++ u :: rest).length = pre.length + 1 + rest.length := by
    simp
    omega
  simp only [pyDelItem]
  rw [show (if (pre.length : Int) < 0
        then (pre.length : Int) + (pre ++ u :: rest).length
        else (pre.length : Int)) = (pre.length : Int) from if_neg (by omega)]
  rw [if_neg (by omega), if_pos (by push_cast; omega)]
  have hj : ((pre.length : Int)).toNat = pre.length := by omega
  rw [hj, List.eraseIdx_eq_take_drop_succ]
  have htake : List.take pre.length (pre ++ u :: rest) = pre := List.take_left' rfl
  have hdrop : List.drop (pre.length + 1) (pre ++ u :: rest) = rest := by
    have h : pre ++ u :: rest = (pre ++ [u]) ++ rest := by simp
    rw [h]
    exact List.drop_left' (by simp)
  rw [htake, hdrop]

/-- C7 (amended): when `UNARY_NOT` is immediately followed by
`POP_JUMP_IF_FALSE`, the pair is replaced by a single `POP_JUMP_IF_TRUE`
to the same target and the cursor rewinds — *regardless* of whether the
negation's operand is a tracked constant (the handler never consults the
constant stack); what is intentionally left unfolded is constant-folding
of `UNARY_NOT` itself: the handler never touches the constants table or
the tracked stack (both are unchanged in the result). -/
theorem spec_C7_not_jump_fusion (instr u nxt : Instr) (s : OptState)
    (pre post : List Instr)
    (hblock : s.block = pre ++ [u, nxt] ++ post)
    (hidx : s.index = (pre.length : Int) + 1)
    (hname : nxt.name = .POP_JUMP_IF_FALSE) :
    eval_UNARY_NOT instr s = .ok
      { blocks := s.blocks.set s.bi
          (pre ++ [instr.replace .POP_JUMP_IF_TRUE nxt.arg] ++ post),
        consts := s.consts, const_stack := s.const_stack,
        bi := s.bi, index := s.index - 1, in_consts := s.in_consts,
        labelCtr := s.labelCtr } := by
  have hg : pyGet s.block s.index = .ok nxt := by
    rw [hblock, hidx]
    have h : pre ++ [u, nxt] ++ post = pre ++ u :: nxt :: post := by simp
    rw [h]
    exact pyGet_at_append_succ pre u nxt post
  simp only [eval_UNARY_NOT, hg]
  rw [if_pos hname]
  simp only [OptState.setBlock, OptState.block]
  have hbl : s.blocks.getD s.bi [] = pre ++ [u, nxt] ++ post := hblock
  rw [hbl]
  rw [pySliceAssign_exact pre [u, nxt] post
      [instr.replace .POP_JUMP_IF_TRUE nxt.arg] (s.index - 1) (s.index + 1)
      (by rw [hidx]; ring)
      (by rw [hidx]; simp only [List.length_cons, List.length_nil]; push_cast; ring)]

/-- C7 witness: the fusion at a state whose constant stack is nonempty. -/
theorem spec_C7_not_jump_fusion_witness :
    eval_UNARY_NOT iNOT c7state = .ok c7out ∧ c7state.const_stack ≠ [] :=
  ⟨spec_C7_not_jump_fusion iNOT iNOT (iPJIF 1) c7state [iLC 0] [] rfl rfl rfl,
   by simp [c7state]⟩

/-- C8 (amended): `eval_RETURN_VALUE` does nothing when fewer than two
instructions follow the cursor (so a trailing `RETURN; RETURN` or
`RETURN; JUMP` pair is left as-is); when the instruction *two past* the
trigger is another `RETURN_VALUE` (pattern `RETURN_VALUE; x;
RETURN_VALUE`) it deletes `x` and that second return; and when the pattern
test fails but the next instruction is an unconditional jump (with at
least one more instruction after it) it deletes the jump. -/
theorem spec_C8_return_simplify (instr : Instr) (s : OptState) :
    ((s.block.length : Int) - s.index < 2 → eval_RETURN_VALUE instr s = .ok s)
    ∧ (∀ (pre post : List Instr) (x y : Instr),
        s.block = pre ++ [x, y] ++ post → s.index = (pre.length : Int) →
        y.name = .RETURN_VALUE →
        eval_RETURN_VALUE instr s = .ok (s.setBlock (pre ++ post)))
    ∧ (∀ (pre post : List Instr) (j z : Instr),
        s.block = pre ++ [j, z] ++ post → s.index = (pre.length : Int) →
        z.name ≠ .RETURN_VALUE →
        (j.name = .JUMP_ABSOLUTE ∨ j.name = .JUMP_FORWARD) →
        eval_RETURN_VALUE instr s = .ok (s.setBlock (pre ++ [z] ++ post))) := by
  refine ⟨?_, ?_, ?_⟩
  · intro hlt
    simp only [eval_RETURN_VALUE]
    rw [if_pos hlt]
  · intro pre post x y hblock hidx hy
    have hlen : s.block.length = pre.length + 2 + post.length := by
      rw [hblock]
      simp
      omega
    have hg3 : pyGet s.block (s.index + 1) = .ok y := by
      rw [hblock, hidx]
      have h : pre ++ [x, y] ++ post = pre ++ x :: y :: post := by simp
      rw [h]
      exact pyGet_at_append_succ pre x y post
    simp only [eval_RETURN_VALUE, hg3]
    rw [if_neg (by omega), if_pos hy, hblock]
    rw [pySliceAssign_exact pre [x, y] post [] s.index (s.index + 2) hidx
      (by rw [hidx]; simp only [List.length_cons, List.length_nil]; push_cast; ring)]
    simp
  · intro pre post j z hblock hidx hz hj
    have hlen : s.block.length = pre.length + 2 + post.length := by
      rw [hblock]
      simp
      omega
    have hg3 : pyGet s.block (s.index + 1) = .ok z := by
      rw [hblock, hidx]
      have h : pre ++ [j, z] ++ post = pre ++ j :: z :: post := by simp
      rw [h]
      exact pyGet_at_append_succ pre j z post
    have hg2 : pyGet s.block s.index = .ok j := by
      rw [hblock, hidx]
      have h : pre ++ [j, z] ++ post = pre ++ j :: z :: post := by simp
      rw [h]
      exact pyGet_at_append pre j (z :: post)
    have hdel : pyDelItem s.block s.index = .ok (pre ++ z :: post) := by
      rw [hblock, hidx]
      have h : pre ++ [j, z] ++ post = pre ++ j :: z :: post := by simp
      rw [h]
      exact pyDelItem_at_append pre j (z :: post)
    simp only [eval_RETURN_VALUE, hg3, hg2, hdel]
    rw [if_neg (by omega), if_neg (by simpa using hz), if_pos hj]
    simp

/-- C8 witness: the short-tail guard at a concrete state (`RETURN;
JUMP_FORWARD` as the last two instructions: nothing is deleted). -/
theorem spec_C8_return_simplify_witness :
    ((c8state.block.length : Int) - c8state.index < 2)
    ∧ eval_RETURN_VALUE iRET c8state = .ok c8state :=
  ⟨by decide, (spec_C8_return_simplify iRET c8state).1 (by decide)⟩

/-- C9 (amended): when `BUILD_TUPLE` of arity n (1 ≤ n ≤ 3) is immediately
followed by `UNPACK_SEQUENCE n` *and fewer than n constants are tracked*
(otherwise the constant-fold path of `eval_BUILD_TUPLE` wins and the
unpack rule is not reached): for n = 1 both instructions are deleted and
the tracked stack is empty afterwards; for n = 2 both are replaced by one
`ROT_TWO` with the stack cleared; for n = 3 both are replaced by
`ROT_THREE; ROT_TWO` with the stack cleared. -/
theorem spec_C9_tuple_unpack (instr nxt : Instr) (s : OptState)
    (pre post : List Instr) (n : Nat)
    (ha : instr.arg = .num n) (h1 : 1 ≤ n) (h3 : n ≤ 3)
    (hfew : s.const_stack.length < n)
    (hblock : s.block = pre ++ [instr, nxt] ++ post)
    (hidx : s.index = (pre.length : Int) + 1)
    (hn1 : nxt.name = .UNPACK_SEQUENCE) (hn2 : nxt.arg = .num n) :
    (n = 1 → eval_BUILD_TUPLE instr s = .ok (s.setBlock (pre ++ post))
        ∧ s.const_stack = [])
    ∧ (n = 2 → eval_BUILD_TUPLE instr s = .ok
        { blocks := s.blocks.set s.bi
            (pre ++ [⟨instr.lineno, .ROT_TWO, .noArg⟩] ++ post),
          consts := s.consts, const_stack := [], bi := s.bi,
          index := s.index - 1, in_consts := s.in_consts,
          labelCtr := s.labelCtr })
    ∧ (n = 3 → eval_BUILD_TUPLE instr s = .ok
        { blocks := s.blocks.set s.bi
            (pre ++ [⟨instr.lineno, .ROT_THREE, .noArg⟩,
                     ⟨instr.lineno, .ROT_TWO, .noArg⟩] ++ post),
          consts := s.consts, const_stack := [], bi := s.bi,
          index := s.index - 1, in_consts := s.in_consts,
          labelCtr := s.labelCtr }) := by
  have hg : pyGet s.block s.index = .ok nxt := by
    rw [hblock, hidx]
    have h : pre ++ [instr, nxt] ++ post = pre ++ instr :: nxt :: post := by simp
    rw [h]
    exact pyGet_at_append_succ pre instr nxt post
  have key : eval_BUILD_TUPLE instr s = build_tuple_unpack_seq instr s := by
    simp only [eval_BUILD_TUPLE, ha]
    rw [if_neg (by omega), if_neg (by omega)]
  have key2 : build_tuple_unpack_seq instr s =
      (if n = 1 then
        .ok (s.setBlock (pySliceAssign s.block (s.index - 1) (s.index + 1) []))
      else if n = 2 then
        .ok { (s.setBlock (pySliceAssign s.block (s.index - 1) (s.index + 1)
              [⟨instr.lineno, .ROT_TWO, .noArg⟩])) with
              index := s.index - 1, const_stack := [] }
      else
        .ok { (s.setBlock (pySliceAssign s.block (s.index - 1) (s.index + 1)
              [⟨instr.lineno, .ROT_THREE, .noArg⟩,
               ⟨instr.lineno, .ROT_TWO, .noArg⟩])) with
              index := s.index - 1, const_stack := [] }) := by
    simp only [build_tuple_unpack_seq, ha, hg]
    rw [if_neg (not_not_intro ⟨h1, h3⟩), if_neg (not_not_intro ⟨hn1, hn2⟩)]
    rfl
  refine ⟨?_, ?_, ?_⟩
  · intro hn
    subst hn
    constructor
    · rw [key, key2, if_pos rfl, hblock]
      rw [pySliceAssign_exact pre [instr, nxt] post [] (s.index - 1) (s.index + 1)
        (by rw [hidx]; ring)
        (by rw [hidx]; simp only [List.length_cons, List.length_nil]; push_cast; ring)]
      simp
    · exact List.eq_nil_of_length_eq_zero (by omega)
  · intro hn
    subst hn
    rw [key, key2, if_neg (by omega), if_pos rfl, hblock]
    rw [pySliceAssign_exact pre [instr, nxt] post
        [⟨instr.lineno, .ROT_TWO, .noArg⟩] (s.index - 1) (s.index + 1)
        (by rw [hidx]; ring)
        (by rw [hidx]; simp only [List.length_cons, List.length_nil]; push_cast; ring)]
    rfl
  · intro hn
    subst hn
    rw [key, key2, if_neg (by omega), if_neg (by omega), hblock]
    rw [pySliceAssign_exact pre [instr, nxt] post
        [⟨instr.lineno, .ROT_THREE, .noArg⟩, ⟨instr.lineno, .ROT_TWO, .noArg⟩]
        (s.index - 1) (s.index + 1)
        (by rw [hidx]; ring)
        (by rw [hidx]; simp only [List.length_cons, List.length_nil]; push_cast; ring)]
    rfl

/-- C9 witness: `BUILD_TUPLE 2; UNPACK_SEQUENCE 2` with no tracked
constants becomes a single `ROT_TWO`. -/
theorem spec_C9_tuple_unpack_witness :
    eval_BUILD_TUPLE (iBT 2) c9wstate = .ok c9wOut :=
  (spec_C9_tuple_unpack (iBT 2) (iUNP 2) c9wstate [] [iRET] 2 rfl
    (by decide) (by decide) (by decide) rfl rfl rfl rfl).2.1 rfl

theorem step_match_ne_none (x : Except PyErr OptState) :
    (match x with
     | .error e => (Except.error e : Except PyErr (Option OptState))
     | .ok s4 => Except.ok (some s4)) ≠ Except.ok none := by
  cases x <;> simp

/-- C10 (amended): the constant stack is cleared *lazily*, not per block:
before dispatching an instruction it is emptied iff the previous step did
not produce a tracked constant.  Consequently, whenever a block is entered
with the constant flag unset (`in_consts = false`) the stale stack
contents are irrelevant: the block scan computes the same result as if the
stack had been rebuilt empty.  (When the previous block ended in
`LOAD_CONST` the flag is set and the stack leaks across the boundary —
see the counterexample.) -/
theorem spec_C10_stack_lazy_clear (fuel : Nat) (s : OptState)
    (hin : s.in_consts = false) (hidx : s.index < (s.block.length : Int)) :
    optimize_block fuel s = optimize_block fuel { s with const_stack := [] } := by
  cases fuel with
  | zero => rfl
  | succ fuel =>
    have hstep : step { s with const_stack := [] } = step s := by
      simp [step, OptState.block, hin]
    cases hs : step s with
    | error e =>
        have hs' : step { s with const_stack := [] } = .error e := by
          rw [hstep]
          exact hs
        simp only [optimize_block, hs, hs']
    | ok o =>
        cases o with
        | none =>
            exfalso
            simp only [step] at hs
            rw [if_pos hidx] at hs
            cases hg : pyGet s.block s.index with
            | error e =>
                simp only [hg] at hs
                cases hs
            | ok instr =>
                simp only [hg] at hs
                exact step_match_ne_none _ hs
        | some s1 =>
            have hs' : step { s with const_stack := [] } = .ok (some s1) := by
              rw [hstep]
              exact hs
            simp only [optimize_block, hs, hs']

/-- C10 witness: a block entered with a stale tracked stack but the flag
unset scans identically to the same block with an empty stack. -/
theorem spec_C10_stack_lazy_clear_witness :
    optimize_block 5 c10wstate
      = optimize_block 5 { c10wstate with const_stack := [] } :=
  spec_C10_stack_lazy_clear 5 c10wstate rfl (by decide)
